import Mathlib

/-!
Shallow embedding of the Google Ads to BigQuery ETL scripts of this
repository (src/ga_api_upd/ga_mcc_download_data.py and
src/ga_api_upd/ga_client_download_data.py), together with proofs of the
orchestration properties stated in the specification.

A pandas DataFrame is modelled as a list of column names plus a list of
rows; each row is an association list from column name to cell value, and
a missing entry in a row plays the role of a NaN cell for a column the row
lacks.  The Google Ads query interface and the BigQuery sink are opaque
collaborators: a query is represented by its already-iterated result,
namely an Except value that is either the list of typed response rows or
an error (a GoogleAdsException raised while streaming), and the success of
a BigQuery load job is an oracle boolean supplied per call.  Error prints
are modelled as Log values; informational prints carry no data flow and
are not modelled.
-/

/-- A cell of a DataFrame: a string, a number, or NaN. -/
inductive Val where
  | str : String → Val
  | num : Rat → Val
  | null : Val
deriving DecidableEq, Repr

abbrev Row := List (String × Val)

/-- Cell lookup in a row: first entry for the column, NaN when absent. -/
def rowGet : Row → String → Val
  | [], _ => .null
  | (k, v) :: t, c => if k = c then v else rowGet t c

/-- Overwrite (or create) one cell of a row. -/
def rowSet (r : Row) (c : String) (v : Val) : Row :=
  (c, v) :: r.filter (fun p => decide (p.1 ≠ c))

structure DataFrame where
  cols : List String
  rows : List Row
deriving DecidableEq, Repr

/-- The result of pd.DataFrame() and of pd.DataFrame([]). -/
def emptyDF : DataFrame := ⟨[], []⟩

/-- Build a DataFrame from a list of dicts that all share the key list
cols, as pd.DataFrame(rows) does for the row dicts built by the scripts;
an empty list yields a frame with no columns. -/
def dfOfDicts (cols : List String) (rows : List Row) : DataFrame :=
  if rows.isEmpty then emptyDF else ⟨cols, rows⟩

/-- Fill one NaN cell of a row, as fillna does column-wise. -/
def fillRow (c : String) (v : Val) (r : Row) : Row :=
  if rowGet r c = .null then rowSet r c v else r

/-- df[c] = df[c].fillna(v) for a column already present in df. -/
def fillnaCol (df : DataFrame) (c : String) (v : Val) : DataFrame :=
  ⟨df.cols, df.rows.map (fillRow c v)⟩

/-- df[c] = v: column assignment of a scalar, creating the column at the
end of the column list when absent. -/
def setCol (df : DataFrame) (c : String) (v : Val) : DataFrame :=
  ⟨if c ∈ df.cols then df.cols else df.cols ++ [c], df.rows.map (fun r => rowSet r c v)⟩

/-- pd.concat([a, b], ignore_index=True): rows appended, columns the
union in order of first appearance. -/
def concatDF (a b : DataFrame) : DataFrame :=
  ⟨a.cols ++ b.cols.filter (fun c => decide (c ∉ a.cols)), a.rows ++ b.rows⟩

/-- The per-column fillna loop of the MCC script: fill each listed column
with v, skipping columns not present in the frame. -/
def fillnaPresent (df : DataFrame) (cs : List String) (v : Val) : DataFrame :=
  cs.foldl (fun d c => if c ∈ d.cols then fillnaCol d c v else d) df

/-- The tuple of join-key values of a row. -/
def keyOf (ks : List String) (r : Row) : List Val := ks.map (rowGet r)

/-- Entries of a row outside the join-key columns. -/
def dropKeyCols (ks : List String) (r : Row) : Row :=
  r.filter (fun p => decide (p.1 ∉ ks))

/-- Right-side rows whose key equals the key of the left row l. -/
def matchRows (ks : List String) (rs : List Row) (l : Row) : List Row :=
  rs.filter (fun r => decide (keyOf ks r = keyOf ks l))

/-- Left part of an outer merge: every left row, combined with each
matching right row, or kept alone (right cells NaN) when unmatched. -/
def leftJoinRows (ks : List String) (ls rs : List Row) : List Row :=
  match ls with
  | [] => []
  | l :: t =>
      (match matchRows ks rs l with
        | [] => [l]
        | m :: ms => (m :: ms).map (fun r => l ++ dropKeyCols ks r)) ++
      leftJoinRows ks t rs

/-- Right-side rows with no key match on the left; they enter the outer
merge as they are, with the left-only cells NaN. -/
def rightOnlyRows (ks : List String) (ls rs : List Row) : List Row :=
  rs.filter (fun r => !(ls.any (fun l => decide (keyOf ks l = keyOf ks r))))

/-- pd.merge(L, R, on=ks, how="outer") for frames whose non-key columns
are disjoint, which is the case at every merge site of the scripts. -/
def mergeOuter (ks : List String) (L R : DataFrame) : DataFrame :=
  ⟨L.cols ++ R.cols.filter (fun c => decide (c ∉ L.cols)),
   leftJoinRows ks L.rows R.rows ++ rightOnlyRows ks L.rows R.rows⟩

/-- Numeric view of a cell; NaN counts as 0, as pandas sum skips NaN. -/
def valNum : Val → Rat
  | .num q => q
  | _ => 0

/-- Sum of a numeric column over a frame. -/
def sumCol (df : DataFrame) (c : String) : Rat :=
  df.rows.foldr (fun r a => valNum (rowGet r c) + a) 0

/-- One error line printed to the run log. -/
inductive Log where
  | adsError (customerId : String) (context : String)
  | bqError (tableId : String)
  | threadError (excText : String)
deriving DecidableEq, Repr

/-- Model of handle google ads exception: it always prints one error line
carrying the account id and the context string. -/
def handleAdsException (customerId context : String) : Log :=
  .adsError customerId context

/-- Model of s.split(sep)[-1] for sep = the slash character. -/
def lastSegment (s : String) : String :=
  String.mk (((s.toList.reverse).takeWhile (fun ch => decide (ch ≠ '/'))).reverse)

/-- Insertion into a Python dict rendered as an association list: an
existing key keeps its position and takes the new value, a new key goes
to the end (dicts preserve insertion order). -/
def dictInsert (d : List (String × String)) (k v : String) : List (String × String) :=
  if k ∈ d.map Prod.fst then d.map (fun p => if p.1 = k then (k, v) else p)
  else d ++ [(k, v)]

structure Account where
  id : String
  name : String
deriving DecidableEq, Repr

/-- Account discovery.  The response rows are pairs of the
customer_client.client_customer resource name and the descriptive name;
the loop keys the all_accounts dict by the last segment of the resource
name.  A GoogleAdsException is logged and ends the process via
sys.exit(1), modelled as the error case. -/
def get_active_client_accounts (resp : Except Unit (List (String × String))) :
    Except Unit (List Account) :=
  match resp with
  | .error _ => .error ()
  | .ok rows =>
      .ok ((rows.foldl (fun d p => dictInsert d (lastSegment p.1) p.2) []).map
        (fun p => ⟨p.1, p.2⟩))

/-- Outcome of one BigQuery load call plus its observable effects. -/
structure StreamResult where
  success : Bool
  visible : DataFrame
  attempted : Option (DataFrame × String)
  logs : List Log
deriving DecidableEq, Repr

def idCols : List String := ["campaign_id", "ad_group_id", "customer_id"]

/-- Python str of a cell, as column.astype(str) maps each element.  The
decimal rendering of a non-integer number is approximated; the scripts
only convert identifier columns, whose cells are integers or strings. -/
def pyStr (v : Val) : String :=
  match v with
  | .str s => s
  | .num q => if q.den = 1 then toString q.num else toString q
  | .null => "nan"

/-- The astype(str) loop of stream_to_bigquery over the id columns that
are present, mutating the frame in place. -/
def astypeStrCols (df : DataFrame) : DataFrame :=
  idCols.foldl (fun d c =>
    if c ∈ d.cols then ⟨d.cols, d.rows.map (fun r => rowSet r c (.str (pyStr (rowGet r c))))⟩
    else d) df

/-- stream_to_bigquery: empty frame returns False at once; otherwise the
id columns are converted to str in place, the write disposition is
truncate for a first batch and append otherwise, and the load is
attempted; any exception is caught, logged with the table id, and turned
into a False return.  bqOk is the oracle for the load succeeding. -/
def stream_to_bigquery (df : DataFrame) (tableId : String)
    (isFirstBatch : Bool) (bqOk : Bool) : StreamResult :=
  if df.rows.isEmpty then ⟨false, df, none, []⟩
  else
    let d := astypeStrCols df
    let disp := if isFirstBatch then "WRITE_TRUNCATE" else "WRITE_APPEND"
    if bqOk then ⟨true, d, some (d, disp), []⟩
    else ⟨false, d, some (d, disp), [.bqError tableId]⟩

/-- One row of the campaign-budget query (campaign.id,
campaign_budget.amount_micros). -/
structure BudgetRow where
  campaignId : Nat
  amountMicros : Nat
deriving DecidableEq, Repr

/-- One row of the standard (non PMax) metrics query over ad_group. -/
structure StdRow where
  campaignId : Nat
  campaignName : String
  campaignStatus : String
  adGroupId : Nat
  adGroupName : String
  date : String
  clicks : Nat
  impressions : Nat
  costMicros : Nat
deriving DecidableEq, Repr

/-- One row of the standard conversions query over ad_group. -/
structure StdConvRow where
  campaignId : Nat
  adGroupId : Nat
  date : String
  conversionActionName : String
  conversions : Rat
deriving DecidableEq, Repr

/-- One row of the PMax general query over campaign. -/
structure PmaxRow where
  campaignId : Nat
  campaignName : String
  campaignStatus : String
  budgetAmountMicros : Nat
  date : String
  clicks : Nat
  impressions : Nat
  costMicros : Nat
deriving DecidableEq, Repr

/-- One row of the PMax conversions query over campaign. -/
structure PmaxConvRow where
  campaignId : Nat
  date : String
  conversionActionName : String
  conversions : Rat
deriving DecidableEq, Repr

/-- One row of the geographic_view query. -/
structure GeoRow where
  campaignId : Nat
  campaignName : String
  date : String
  countryCriterionId : Nat
  impressions : Nat
  clicks : Nat
  costMicros : Nat
  conversions : Rat
deriving DecidableEq, Repr

/-- One row of the search_term_view query. -/
structure SearchRow where
  date : String
  campaignId : Nat
  campaignName : String
  adGroupId : Nat
  adGroupName : String
  searchTerm : String
  device : String
  impressions : Nat
  clicks : Nat
  costMicros : Nat
  conversions : Rat
deriving DecidableEq, Repr

/-- Insertion into the campaign_budgets dict (string campaign id to
budget in currency units). -/
def budgetInsert (d : List (String × Rat)) (k : String) (v : Rat) : List (String × Rat) :=
  if k ∈ d.map Prod.fst then d.map (fun p => if p.1 = k then (k, v) else p)
  else d ++ [(k, v)]

/-- The campaign_budgets dict built by the budget query; a
GoogleAdsException there is swallowed by a bare pass, leaving the dict as
collected so far (empty when the stream fails at once) and printing no
log line. -/
def budgetsOf (resp : Except Unit (List BudgetRow)) : List (String × Rat) :=
  match resp with
  | .error _ => []
  | .ok bs =>
      bs.foldl (fun d b =>
        budgetInsert d (toString b.campaignId) ((b.amountMicros : Rat) / 1000000)) []

/-- campaign_budgets.get(camp_id_str, 0). -/
def budgetGet (d : List (String × Rat)) (k : String) : Rat :=
  match d.find? (fun p => decide (p.1 = k)) with
  | some p => p.2
  | none => 0

def stdCols : List String :=
  ["account_name", "campaign_id", "campaign_name", "campaign_status", "daily_budget",
   "ad_group_id", "ad_group_name", "date", "clicks", "impressions", "cost"]

/-- The dict appended to rows_std for one standard metrics row. -/
def stdRowDict (budgets : List (String × Rat)) (accountName : String) (r : StdRow) : Row :=
  [("account_name", .str accountName),
   ("campaign_id", .str (toString r.campaignId)),
   ("campaign_name", .str r.campaignName),
   ("campaign_status", .str r.campaignStatus),
   ("daily_budget", .num (budgetGet budgets (toString r.campaignId))),
   ("ad_group_id", .str (toString r.adGroupId)),
   ("ad_group_name", .str r.adGroupName),
   ("date", .str r.date),
   ("clicks", .num (r.clicks : Rat)),
   ("impressions", .num (r.impressions : Rat)),
   ("cost", .num ((r.costMicros : Rat) / 1000000))]

def stdConvCols : List String :=
  ["campaign_id", "ad_group_id", "date", "conversion_name", "conversions"]

/-- The dict built in rows_conv for one standard conversions row. -/
def stdConvRowDict (r : StdConvRow) : Row :=
  [("campaign_id", .str (toString r.campaignId)),
   ("ad_group_id", .str (toString r.adGroupId)),
   ("date", .str r.date),
   ("conversion_name", .str r.conversionActionName),
   ("conversions", .num r.conversions)]

def pmaxCols : List String :=
  ["account_name", "campaign_id", "campaign_name", "campaign_status", "daily_budget",
   "ad_group_id", "ad_group_name", "date", "clicks", "impressions", "cost"]

/-- The dict appended to rows_gen for one PMax general row; the campaign
id stays a raw integer here and the ad group cells are placeholders. -/
def pmaxRowDict (accountName : String) (r : PmaxRow) : Row :=
  [("account_name", .str accountName),
   ("campaign_id", .num (r.campaignId : Rat)),
   ("campaign_name", .str r.campaignName),
   ("campaign_status", .str r.campaignStatus),
   ("daily_budget", .num ((r.budgetAmountMicros : Rat) / 1000000)),
   ("ad_group_id", .str "0"),
   ("ad_group_name", .str "Performance Max"),
   ("date", .str r.date),
   ("clicks", .num (r.clicks : Rat)),
   ("impressions", .num (r.impressions : Rat)),
   ("cost", .num ((r.costMicros : Rat) / 1000000))]

def pmaxConvCols : List String :=
  ["campaign_id", "date", "conversion_name", "conversions"]

/-- The dict built in rows_conv for one PMax conversions row. -/
def pmaxConvRowDict (r : PmaxConvRow) : Row :=
  [("campaign_id", .num (r.campaignId : Rat)),
   ("date", .str r.date),
   ("conversion_name", .str r.conversionActionName),
   ("conversions", .num r.conversions)]

/-- load_pmax_data of the MCC script.  Both queries run inside one try;
an exception in either one is logged for the account and the whole
sub-task returns an empty frame.  Otherwise the two frames are combined:
both empty gives empty, one empty gives the other (with account and ad
group labels added on the conversions-only side), both non-empty gives an
outer merge on campaign_id and date followed by a fillna of account_name
when that column is present. -/
def load_pmax_data (customerId accountName : String)
    (genResp : Except Unit (List PmaxRow)) (convResp : Except Unit (List PmaxConvRow)) :
    DataFrame × List Log :=
  match genResp with
  | .error _ => (emptyDF, [handleAdsException customerId "PMax"])
  | .ok gens =>
    match convResp with
    | .error _ => (emptyDF, [handleAdsException customerId "PMax"])
    | .ok convs =>
        let pmax_df := dfOfDicts pmaxCols (gens.map (pmaxRowDict accountName))
        let conv_df := dfOfDicts pmaxConvCols (convs.map pmaxConvRowDict)
        let final :=
          if pmax_df.rows.isEmpty ∧ conv_df.rows.isEmpty then emptyDF
          else if pmax_df.rows.isEmpty then
            setCol (setCol conv_df "account_name" (.str accountName))
              "ad_group_name" (.str "Performance Max")
          else if conv_df.rows.isEmpty then pmax_df
          else
            let m := mergeOuter ["campaign_id", "date"] pmax_df conv_df
            if "account_name" ∈ m.cols then fillnaCol m "account_name" (.str accountName)
            else m
        (final, [])

/-- The std_df and conv_df frames of get_all_campaign_data_for_account.
Both queries run inside one try block: an exception in the metrics query
leaves both frames empty, an exception in the conversions query keeps the
already-built std_df and leaves conv_df empty; either way one error line
with the account id is printed. -/
def stdDfsOf (customerId accountName : String) (budgets : List (String × Rat))
    (stdResp : Except Unit (List StdRow)) (convResp : Except Unit (List StdConvRow)) :
    DataFrame × DataFrame × List Log :=
  match stdResp with
  | .error _ => (emptyDF, emptyDF, [handleAdsException customerId "Standard Campaigns"])
  | .ok stds =>
      let std_df := dfOfDicts stdCols (stds.map (stdRowDict budgets accountName))
      match convResp with
      | .error _ => (std_df, emptyDF, [handleAdsException customerId "Standard Campaigns"])
      | .ok convs => (std_df, dfOfDicts stdConvCols (convs.map stdConvRowDict), [])

/-- The final_std combination step: both empty gives empty, one empty
gives the other (conversions-only side gets the account name column),
both non-empty gives an outer merge on campaign_id, ad_group_id and date
followed by fillna of account_name. -/
def combineStd (accountName : String) (std_df conv_df : DataFrame) : DataFrame :=
  if std_df.rows.isEmpty ∧ conv_df.rows.isEmpty then emptyDF
  else if std_df.rows.isEmpty then setCol conv_df "account_name" (.str accountName)
  else if conv_df.rows.isEmpty then std_df
  else fillnaCol (mergeOuter ["campaign_id", "ad_group_id", "date"] std_df conv_df)
        "account_name" (.str accountName)

def zeroCols : List String :=
  ["clicks", "impressions", "cost", "conversions", "daily_budget"]

/-- The tail of get_all_campaign_data_for_account: concat of the standard
and PMax frames, then, when non-empty, zero-fill of the measure columns
that are present, the customer_id column assignment, and the UNKNOWN fill
of campaign_status when present. -/
def finalizeCampaign (customerId : String) (final_std final_pmax : DataFrame) : DataFrame :=
  let final_df := concatDF final_std final_pmax
  if final_df.rows.isEmpty then final_df
  else
    let f1 := fillnaPresent final_df zeroCols (.num 0)
    let f2 := setCol f1 "customer_id" (.str customerId)
    if "campaign_status" ∈ f2.cols then fillnaCol f2 "campaign_status" (.str "UNKNOWN")
    else f2

/-- get_all_campaign_data_for_account of the MCC script, from the budget
dict through the standard frames, the PMax sub-call, and the final
combination. -/
def get_all_campaign_data_for_account (customerId accountName : String)
    (budgetResp : Except Unit (List BudgetRow))
    (stdResp : Except Unit (List StdRow)) (convResp : Except Unit (List StdConvRow))
    (pmaxGenResp : Except Unit (List PmaxRow))
    (pmaxConvResp : Except Unit (List PmaxConvRow)) :
    DataFrame × List Log :=
  let budgets := budgetsOf budgetResp
  let sd := stdDfsOf customerId accountName budgets stdResp convResp
  let final_std := combineStd accountName sd.1 sd.2.1
  let pm := load_pmax_data customerId accountName pmaxGenResp pmaxConvResp
  (finalizeCampaign customerId final_std pm.1, sd.2.2 ++ pm.2)

def geoCols : List String :=
  ["account_name", "customer_id", "campaign_id", "campaign_name", "date",
   "country_criterion_id", "impressions", "clicks", "cost", "conversions"]

/-- The dict built for one geographic_view row. -/
def geoRowDict (accountName customerId : String) (r : GeoRow) : Row :=
  [("account_name", .str accountName),
   ("customer_id", .str customerId),
   ("campaign_id", .num (r.campaignId : Rat)),
   ("campaign_name", .str r.campaignName),
   ("date", .str r.date),
   ("country_criterion_id", .num (r.countryCriterionId : Rat)),
   ("impressions", .num (r.impressions : Rat)),
   ("clicks", .num (r.clicks : Rat)),
   ("cost", .num ((r.costMicros : Rat) / 1000000)),
   ("conversions", .num r.conversions)]

/-- get_geo_data_for_account: one query; an exception is logged for the
account and degrades the output to an empty frame. -/
def get_geo_data_for_account (customerId accountName : String)
    (resp : Except Unit (List GeoRow)) : DataFrame × List Log :=
  match resp with
  | .ok rs => (dfOfDicts geoCols (rs.map (geoRowDict accountName customerId)), [])
  | .error _ => (emptyDF, [handleAdsException customerId "GEO"])

def searchCols : List String :=
  ["account_name", "customer_id", "date", "campaign_id", "campaign_name",
   "ad_group_id", "ad_group_name", "search_term", "device",
   "impressions", "clicks", "cost", "conversions"]

/-- The dict built for one search_term_view row. -/
def searchRowDict (accountName customerId : String) (r : SearchRow) : Row :=
  [("account_name", .str accountName),
   ("customer_id", .str customerId),
   ("date", .str r.date),
   ("campaign_id", .num (r.campaignId : Rat)),
   ("campaign_name", .str r.campaignName),
   ("ad_group_id", .num (r.adGroupId : Rat)),
   ("ad_group_name", .str r.adGroupName),
   ("search_term", .str r.searchTerm),
   ("device", .str r.device),
   ("impressions", .num (r.impressions : Rat)),
   ("clicks", .num (r.clicks : Rat)),
   ("cost", .num ((r.costMicros : Rat) / 1000000)),
   ("conversions", .num r.conversions)]

/-- get_search_query_data_for_account: one query; an exception is logged
for the account and degrades the output to an empty frame. -/
def get_search_query_data_for_account (customerId accountName : String)
    (resp : Except Unit (List SearchRow)) : DataFrame × List Log :=
  match resp with
  | .ok rs => (dfOfDicts searchCols (rs.map (searchRowDict accountName customerId)), [])
  | .error _ => (emptyDF, [handleAdsException customerId "Search Query"])

/-- All query responses the source delivers for one account. -/
structure AccountResponses where
  budget : Except Unit (List BudgetRow)
  std : Except Unit (List StdRow)
  stdConv : Except Unit (List StdConvRow)
  pmaxGen : Except Unit (List PmaxRow)
  pmaxConv : Except Unit (List PmaxConvRow)
  geo : Except Unit (List GeoRow)
  search : Except Unit (List SearchRow)
deriving Repr

/-- The dict returned by process_one_account. -/
structure AccountData where
  name : String
  camp : DataFrame
  geo : DataFrame
  search : DataFrame
deriving DecidableEq, Repr

/-- process_one_account: the three sub-extractions for one account, run
in sequence; the log lines of the three are what the worker prints. -/
def process_one_account (acc : Account) (resp : AccountResponses) :
    AccountData × List Log :=
  let camp := get_all_campaign_data_for_account acc.id acc.name
    resp.budget resp.std resp.stdConv resp.pmaxGen resp.pmaxConv
  let geo := get_geo_data_for_account acc.id acc.name resp.geo
  let search := get_search_query_data_for_account acc.id acc.name resp.search
  (⟨acc.name, camp.1, geo.1, search.1⟩, camp.2 ++ geo.2 ++ search.2)

/-- Per-call oracle for the three BigQuery loads of one completed result:
whether the load for each logical table would succeed. -/
structure BqOks where
  mainOk : Bool
  geoOk : Bool
  searchOk : Bool
deriving DecidableEq, Repr

/-- One completed future as the result-routing loop sees it: either the
account data (with the sink oracle for its three writes) or the exception
text re-raised by future.result(). -/
abbrev Outcome := Except String (AccountData × BqOks)

/-- The three fully-qualified destination table ids. -/
structure TableIds where
  main : String
  geo : String
  search : String
deriving DecidableEq, Repr

/-- The first_run_main, first_run_geo and first_run_search booleans. -/
structure Flags where
  firstMain : Bool
  firstGeo : Bool
  firstSearch : Bool
deriving DecidableEq, Repr

/-- The three logical destination tables. -/
inductive Tbl where
  | tMain
  | tGeo
  | tSearch
deriving DecidableEq, Repr

def Flags.get (f : Flags) : Tbl → Bool
  | .tMain => f.firstMain
  | .tGeo => f.firstGeo
  | .tSearch => f.firstSearch

def AccountData.dfOf (d : AccountData) : Tbl → DataFrame
  | .tMain => d.camp
  | .tGeo => d.geo
  | .tSearch => d.search

def BqOks.okOf (b : BqOks) : Tbl → Bool
  | .tMain => b.mainOk
  | .tGeo => b.geoOk
  | .tSearch => b.searchOk

/-- Whether an outcome carries a write to table t that returns success:
the outcome is a result (not an exception), its frame for t is non-empty
so a load is attempted, and the load succeeds. -/
def tblWriteOk (t : Tbl) (o : Outcome) : Bool :=
  match o with
  | .error _ => false
  | .ok (d, b) => !(d.dfOf t).rows.isEmpty && b.okOf t

/-- The part of an outcome that the writes to table t can observe: nothing
for an exception, otherwise the frame for t and the load oracle for t. -/
def tblProj (t : Tbl) (o : Outcome) : Option (DataFrame × Bool) :=
  match o with
  | .error _ => none
  | .ok (d, b) => some (d.dfOf t, b.okOf t)

def projWriteOk : Option (DataFrame × Bool) → Bool
  | none => false
  | some (df, ok) => !df.rows.isEmpty && ok

/-- Record of one load job the run dispatched. -/
structure WriteRec where
  tableId : String
  disposition : String
  success : Bool
deriving DecidableEq, Repr

/-- Counters and traces accumulated by the result-routing loop. -/
structure RunLog where
  consumed : Nat
  failed : Nat
  delivered : Nat
  writes : List WriteRec
  logs : List Log
deriving DecidableEq, Repr

def RunLog.init : RunLog := ⟨0, 0, 0, [], []⟩

/-- One of the three guarded write blocks of the routing loop: an empty
frame is skipped, otherwise stream_to_bigquery runs with the current
first-batch flag and the flag is cleared only when the call reports
success while the flag was still set. -/
def routeOne (tableId : String) (df : DataFrame) (first : Bool) (ok : Bool) :
    Bool × List WriteRec × List Log :=
  if df.rows.isEmpty then (first, [], [])
  else
    let sr := stream_to_bigquery df tableId first ok
    ((if sr.success && first then false else first),
     (sr.attempted.map (fun p => WriteRec.mk tableId p.2 sr.success)).toList,
     sr.logs)

/-- The body of the as_completed loop for one future: an exception from
future.result() is caught and printed (with only the exception text) and
skips all three writes; a result routes its three frames to the three
tables in order, threading the per-table flags. -/
def driverStep (tbls : TableIds) (st : Flags × RunLog) (o : Outcome) :
    Flags × RunLog :=
  match o with
  | .error e =>
      (st.1,
       ⟨st.2.consumed + 1, st.2.failed + 1, st.2.delivered, st.2.writes,
        st.2.logs ++ [.threadError e]⟩)
  | .ok (d, b) =>
      let m := routeOne tbls.main d.camp st.1.firstMain b.mainOk
      let g := routeOne tbls.geo d.geo st.1.firstGeo b.geoOk
      let s := routeOne tbls.search d.search st.1.firstSearch b.searchOk
      (⟨m.1, g.1, s.1⟩,
       ⟨st.2.consumed + 1, st.2.failed, st.2.delivered + 1,
        st.2.writes ++ m.2.1 ++ g.2.1 ++ s.2.1,
        st.2.logs ++ m.2.2 ++ g.2.2 ++ s.2.2⟩)

/-- The whole fan-in: results are consumed in completion order starting
from all three flags set (no table written yet). -/
def driverRun (tbls : TableIds) (os : List Outcome) : Flags × RunLog :=
  os.foldl (driverStep tbls) (⟨true, true, true⟩, RunLog.init)

/-- The futures dict comprehension: process_one_account is submitted once
per element of the discovered account list. -/
def submittedTasks (accounts : List Account) : List Account := accounts

def outcomeFailed : Outcome → Bool
  | .error _ => true
  | .ok _ => false

def exOk {ε α : Type} : Except ε α → Bool
  | .ok _ => true
  | .error _ => false

/-- What the main block observably did. -/
structure MainResult where
  exitCode : Nat
  extractionAttempted : Bool
  flags : Flags
  log : RunLog
deriving Repr

/-- The main block of the MCC script: missing key file or a client
initialization error exits with code 1 before any query; a discovery
error exits with code 1 before any extraction or write; otherwise the
fan-out runs, every completed result is routed, and the process ends with
exit code 0 whatever the per-account or per-write outcomes were.  osOf
abstracts the pool: it yields the completed outcomes, in completion
order, for the discovered accounts. -/
def mainRun (keyFileExists clientInitOk : Bool)
    (discResp : Except Unit (List (String × String)))
    (tbls : TableIds) (osOf : List Account → List Outcome) : MainResult :=
  if !keyFileExists then ⟨1, false, ⟨true, true, true⟩, RunLog.init⟩
  else if !clientInitOk then ⟨1, false, ⟨true, true, true⟩, RunLog.init⟩
  else
    match get_active_client_accounts discResp with
    | .error _ => ⟨1, false, ⟨true, true, true⟩, RunLog.init⟩
    | .ok accounts =>
        let r := driverRun tbls (osOf accounts)
        ⟨0, true, r.1, r.2⟩

/-- One row of the single-account standard metrics query. -/
structure CStdRow where
  campaignName : String
  adGroupName : String
  date : String
  clicks : Nat
  impressions : Nat
  costMicros : Nat
deriving DecidableEq, Repr

/-- One row of the single-account standard conversions query. -/
structure CConvRow where
  campaignName : String
  adGroupName : String
  date : String
  conversionActionName : String
  conversions : Rat
deriving DecidableEq, Repr

/-- One row of the single-account PMax general query. -/
structure CPmaxRow where
  campaignName : String
  date : String
  clicks : Nat
  costMicros : Nat
  impressions : Nat
deriving DecidableEq, Repr

/-- One row of the single-account PMax conversions query. -/
structure CPmaxConvRow where
  campaignName : String
  date : String
  conversionActionName : String
  conversions : Rat
deriving DecidableEq, Repr

/-- How the single-account script ends early: sys.exit(1) from a query
error, or an uncaught KeyError from a column selection. -/
inductive ClientErr where
  | sysExit1
  | keyError
deriving DecidableEq, Repr

/-- df[cs] = df[cs].fillna(v): the right-hand selection raises KeyError
when any listed column is absent from the frame; otherwise the listed
columns are filled. -/
def selectFillna (df : DataFrame) (cs : List String) (v : Val) :
    Except ClientErr DataFrame :=
  if cs.all (fun c => decide (c ∈ df.cols)) then
    .ok (cs.foldl (fun d c => fillnaCol d c v) df)
  else .error .keyError

def clientPmaxCols : List String :=
  ["campaign_name", "ad_group_name", "date", "clicks", "cost", "impressions"]

def cPmaxRowDict (r : CPmaxRow) : Row :=
  [("campaign_name", .str r.campaignName),
   ("ad_group_name", .str "Performance Max"),
   ("date", .str r.date),
   ("clicks", .num (r.clicks : Rat)),
   ("cost", .num ((r.costMicros : Rat) / 1000000)),
   ("impressions", .num (r.impressions : Rat))]

def clientPmaxConvCols : List String :=
  ["campaign_name", "ad_group_name", "date", "conversion_name", "conversions"]

def cPmaxConvRowDict (r : CPmaxConvRow) : Row :=
  [("campaign_name", .str r.campaignName),
   ("ad_group_name", .str "Performance Max"),
   ("date", .str r.date),
   ("conversion_name", .str r.conversionActionName),
   ("conversions", .num r.conversions)]

/-- load_pmax_data of the single-account script.  A query exception is
caught and returns an empty frame; both frames empty returns an empty
frame before any fillna; otherwise the combination runs through an
unguarded df[[clicks, cost, conversions, impressions]] fillna, which
raises KeyError when a listed column is absent (the conversions column is
absent when the conversions query matched nothing, and the metric columns
are absent when the general query matched nothing). -/
def client_load_pmax_data (genResp : Except Unit (List CPmaxRow))
    (convResp : Except Unit (List CPmaxConvRow)) : Except ClientErr DataFrame :=
  match genResp with
  | .error _ => .ok emptyDF
  | .ok gens =>
    match convResp with
    | .error _ => .ok emptyDF
    | .ok convs =>
        let pmax_df := dfOfDicts clientPmaxCols (gens.map cPmaxRowDict)
        let conv_df := dfOfDicts clientPmaxConvCols (convs.map cPmaxConvRowDict)
        if pmax_df.rows.isEmpty ∧ conv_df.rows.isEmpty then .ok emptyDF
        else
          let final :=
            if pmax_df.rows.isEmpty then conv_df
            else if conv_df.rows.isEmpty then pmax_df
            else mergeOuter ["campaign_name", "ad_group_name", "date"] pmax_df conv_df
          selectFillna final ["clicks", "cost", "conversions", "impressions"] (.num 0)

def clientStdCols : List String :=
  ["campaign_name", "ad_group_name", "date", "clicks", "impressions", "cost"]

def cStdRowDict (r : CStdRow) : Row :=
  [("campaign_name", .str r.campaignName),
   ("ad_group_name", .str r.adGroupName),
   ("date", .str r.date),
   ("clicks", .num (r.clicks : Rat)),
   ("impressions", .num (r.impressions : Rat)),
   ("cost", .num ((r.costMicros : Rat) / 1000000))]

def clientConvCols : List String :=
  ["campaign_name", "ad_group_name", "date", "conversion_name", "conversions"]

def cConvRowDict (r : CConvRow) : Row :=
  [("campaign_name", .str r.campaignName),
   ("ad_group_name", .str r.adGroupName),
   ("date", .str r.date),
   ("conversion_name", .str r.conversionActionName),
   ("conversions", .num r.conversions)]

/-- load_all_campaign_data of the single-account script up to the BigQuery
load: a standard query exception exits with code 1; the standard frames
are combined (empty-aware, outer merge otherwise), the PMax result is
concatenated, and the unguarded df[[clicks, cost, conversions,
impressions]] fillna runs on the concatenation, raising KeyError when a
listed column is absent, as happens when every query returned empty; an
empty final frame then returns without loading (ok none), otherwise the
frame goes to the sink (ok some). -/
def client_load_all_campaign_data (stdGenResp : Except Unit (List CStdRow))
    (stdConvResp : Except Unit (List CConvRow))
    (pmaxGenResp : Except Unit (List CPmaxRow))
    (pmaxConvResp : Except Unit (List CPmaxConvRow)) :
    Except ClientErr (Option DataFrame) :=
  match stdGenResp with
  | .error _ => .error .sysExit1
  | .ok gens =>
    match stdConvResp with
    | .error _ => .error .sysExit1
    | .ok convs =>
        let campaign_df := dfOfDicts clientStdCols (gens.map cStdRowDict)
        let conversions_df := dfOfDicts clientConvCols (convs.map cConvRowDict)
        let standard_final_df :=
          if campaign_df.rows.isEmpty ∧ conversions_df.rows.isEmpty then emptyDF
          else if campaign_df.rows.isEmpty then conversions_df
          else if conversions_df.rows.isEmpty then campaign_df
          else mergeOuter ["campaign_name", "ad_group_name", "date"]
                campaign_df conversions_df
        match client_load_pmax_data pmaxGenResp pmaxConvResp with
        | .error e => .error e
        | .ok pmax_final_df =>
            let final_df := concatDF standard_final_df pmax_final_df
            match selectFillna final_df
                ["clicks", "cost", "conversions", "impressions"] (.num 0) with
            | .error e => .error e
            | .ok f => if f.rows.isEmpty then .ok none else .ok (some f)

/-- Specification-side helper: the keys of a list in order of first
occurrence. -/
def firstKeys (ks : List String) : List String :=
  ks.foldl (fun acc k => if k ∈ acc then acc else acc ++ [k]) []

/-- Specification-side helper: the last value paired with a key in a list
of key-value pairs. -/
def lastNameIn (rows : List (String × String)) (k : String) : Option String :=
  ((rows.filter (fun p => decide (p.1 = k))).map Prod.snd).getLast?

/-- Whether a row carries an entry for a column (a non-NaN-slot cell). -/
def rowHas (r : Row) (m : String) : Bool := r.any (fun p => decide (p.1 = m))

/-- The row-level function applied by the fillnaPresent loop: fill, in
order, each listed column that the frame has. -/
def gFill (cs cols : List String) (v : Val) (r : Row) : Row :=
  cs.foldl (fun r2 c => if c ∈ cols then fillRow c v r2 else r2) r

theorem rowGet_nil (c : String) : rowGet [] c = Val.null := rfl

theorem rowGet_cons (p : String × Val) (t : Row) (c : String) :
    rowGet (p :: t) c = if p.1 = c then p.2 else rowGet t c := rfl

theorem rowGet_filter_ne (r : Row) (c m : String) (h : m ≠ c) :
    rowGet (r.filter (fun p => decide (p.1 ≠ c))) m = rowGet r m := by
  induction r with
  | nil => rfl
  | cons p t ih =>
      rw [List.filter_cons]
      by_cases hp : p.1 = c
      · have hm : ¬ p.1 = m := fun e => h (e ▸ hp)
        rw [if_neg (by simp [hp]), ih, rowGet_cons, if_neg hm]
      · rw [if_pos (by simp [hp]), rowGet_cons, rowGet_cons, ih]

theorem rowGet_rowSet_self (r : Row) (c : String) (v : Val) :
    rowGet (rowSet r c v) c = v := by
  rw [rowSet, rowGet_cons, if_pos rfl]

theorem rowGet_rowSet_ne (r : Row) (c m : String) (v : Val) (h : m ≠ c) :
    rowGet (rowSet r c v) m = rowGet r m := by
  rw [rowSet, rowGet_cons, if_neg (fun e => h e.symm)]
  exact rowGet_filter_ne r c m h

theorem rowGet_fillRow (r : Row) (c m : String) (v : Val) :
    rowGet (fillRow c v r) m =
      if m = c ∧ rowGet r m = Val.null then v else rowGet r m := by
  unfold fillRow
  by_cases hc : rowGet r c = Val.null
  · rw [if_pos hc]
    by_cases hm : m = c
    · subst hm
      rw [rowGet_rowSet_self, if_pos ⟨rfl, hc⟩]
    · rw [rowGet_rowSet_ne r c m v hm, if_neg (fun q => hm q.1)]
  · rw [if_neg hc]
    by_cases hm : m = c
    · subst hm
      rw [if_neg (fun q => hc q.2)]
    · rw [if_neg (fun q => hm q.1)]

theorem rowHas_cons (p : String × Val) (t : Row) (m : String) :
    rowHas (p :: t) m = (decide (p.1 = m) || rowHas t m) := by
  simp [rowHas, List.any_cons]

theorem rowGet_append (a b : Row) (m : String) :
    rowGet (a ++ b) m = if rowHas a m then rowGet a m else rowGet b m := by
  induction a with
  | nil => rw [List.nil_append, rowGet_nil]; simp [rowHas]
  | cons p t ih =>
      rw [List.cons_append, rowGet_cons, rowGet_cons, rowHas_cons]
      by_cases hp : p.1 = m
      · rw [if_pos hp, if_pos hp]
        simp [hp]
      · rw [if_neg hp, if_neg hp, ih]
        simp [hp]

theorem rowGet_eq_null_of_not_has (r : Row) (m : String) (h : rowHas r m = false) :
    rowGet r m = Val.null := by
  induction r with
  | nil => rfl
  | cons p t ih =>
      rw [rowHas_cons, Bool.or_eq_false_iff] at h
      rw [rowGet_cons, if_neg (by simpa using h.1)]
      exact ih h.2

theorem rowGet_dropKeyCols (ks : List String) (r : Row) (k : String) (hk : k ∈ ks) :
    rowGet (dropKeyCols ks r) k = Val.null := by
  induction r with
  | nil => rfl
  | cons p t ih =>
      rw [dropKeyCols, List.filter_cons]
      by_cases hp : p.1 ∈ ks
      · rw [if_neg (by simp [hp])]
        exact ih
      · have hne : ¬ p.1 = k := fun e => hp (e ▸ hk)
        rw [if_pos (by simp [hp]), rowGet_cons, if_neg hne]
        exact ih

theorem fillnaPresent_cols (cs : List String) (df : DataFrame) (v : Val) :
    (fillnaPresent df cs v).cols = df.cols := by
  induction cs generalizing df with
  | nil => rfl
  | cons c t ih =>
      have step : fillnaPresent df (c :: t) v =
          fillnaPresent (if c ∈ df.cols then fillnaCol df c v else df) t v := rfl
      rw [step]
      by_cases h : c ∈ df.cols
      · rw [if_pos h, ih]
        rfl
      · rw [if_neg h, ih]

theorem fillnaPresent_rows (cs : List String) (df : DataFrame) (v : Val) :
    (fillnaPresent df cs v).rows = df.rows.map (gFill cs df.cols v) := by
  induction cs generalizing df with
  | nil =>
      show df.rows = df.rows.map (fun r => r)
      simp
  | cons c t ih =>
      have step : fillnaPresent df (c :: t) v =
          fillnaPresent (if c ∈ df.cols then fillnaCol df c v else df) t v := rfl
      rw [step]
      by_cases h : c ∈ df.cols
      · rw [if_pos h, ih]
        show (df.rows.map (fillRow c v)).map (gFill t df.cols v) = _
        rw [List.map_map]
        apply List.map_congr_left
        intro r _
        show gFill t df.cols v (fillRow c v r) = gFill (c :: t) df.cols v r
        simp [gFill, List.foldl_cons, h]
      · rw [if_neg h, ih]
        apply List.map_congr_left
        intro r _
        show gFill t df.cols v r = gFill (c :: t) df.cols v r
        simp [gFill, List.foldl_cons, h]

theorem rowGet_gFill (cs cols : List String) (v : Val) (hv : v ≠ Val.null)
    (r : Row) (m : String) :
    rowGet (gFill cs cols v r) m =
      if m ∈ cs ∧ m ∈ cols ∧ rowGet r m = Val.null then v else rowGet r m := by
  induction cs generalizing r with
  | nil => simp [gFill]
  | cons c t ih =>
      have step : gFill (c :: t) cols v r =
          gFill t cols v (if c ∈ cols then fillRow c v r else r) := rfl
      rw [step]
      by_cases hc : c ∈ cols
      · rw [if_pos hc, ih, rowGet_fillRow]
        by_cases hm : m = c
        · subst hm
          by_cases hn : rowGet r m = Val.null
          · simp [hn, hc, hv]
          · simp [hn]
        · simp [List.mem_cons, hm]
      · rw [if_neg hc, ih]
        by_cases hm : m = c
        · subst hm
          simp [hc]
        · simp [List.mem_cons, hm]

theorem mem_union_cols (a b : List String) (x : String) :
    x ∈ a ++ b.filter (fun c => decide (c ∉ a)) ↔ x ∈ a ∨ x ∈ b := by
  simp only [List.mem_append, List.mem_filter, decide_eq_true_eq]
  tauto

theorem mem_setCol_cols (df : DataFrame) (c x : String) (v : Val) :
    x ∈ (setCol df c v).cols ↔ x ∈ df.cols ∨ x = c := by
  show x ∈ (if c ∈ df.cols then df.cols else df.cols ++ [c]) ↔ _
  by_cases h : c ∈ df.cols
  · rw [if_pos h]
    constructor
    · exact Or.inl
    · rintro (hx | rfl)
      · exact hx
      · exact h
  · rw [if_neg h]
    simp [List.mem_append]

theorem mem_concatDF_cols (a b : DataFrame) (x : String) :
    x ∈ (concatDF a b).cols ↔ x ∈ a.cols ∨ x ∈ b.cols :=
  mem_union_cols a.cols b.cols x

theorem mem_mergeOuter_cols (ks : List String) (L R : DataFrame) (x : String) :
    x ∈ (mergeOuter ks L R).cols ↔ x ∈ L.cols ∨ x ∈ R.cols :=
  mem_union_cols L.cols R.cols x

theorem leftJoinRows_cons (ks : List String) (x : Row) (t rs : List Row) :
    leftJoinRows ks (x :: t) rs =
      (match matchRows ks rs x with
        | [] => [x]
        | m :: ms => (m :: ms).map (fun r => x ++ dropKeyCols ks r)) ++
      leftJoinRows ks t rs := rfl

theorem leftJoin_transport (ks : List String) (ls rs : List Row) (l : Row)
    (hl : l ∈ ls) :
    ∃ out ∈ leftJoinRows ks ls rs,
      (∀ m, rowHas l m = true → rowGet out m = rowGet l m) ∧
      (∀ k ∈ ks, rowGet out k = rowGet l k) := by
  induction ls with
  | nil => cases hl
  | cons x t ih =>
      rcases List.mem_cons.mp hl with rfl | hmem
      · rw [leftJoinRows_cons]
        cases hms : matchRows ks rs l with
        | nil =>
            refine ⟨l, ?_, fun m _ => rfl, fun k _ => rfl⟩
            exact List.mem_append_left _ (List.mem_singleton.mpr rfl)
        | cons m0 ms =>
            refine ⟨l ++ dropKeyCols ks m0, ?_, ?_, ?_⟩
            · exact List.mem_append_left _
                (List.mem_map_of_mem _ (List.mem_cons_self m0 ms))
            · intro m hm2
              rw [rowGet_append, if_pos hm2]
            · intro k hk
              rw [rowGet_append]
              by_cases hhas : rowHas l k = true
              · rw [if_pos hhas]
              · rw [if_neg (by simp [hhas]), rowGet_dropKeyCols ks m0 k hk,
                   rowGet_eq_null_of_not_has l k (by simpa using hhas)]
      · obtain ⟨out, ho, hp⟩ := ih hmem
        exact ⟨out, by rw [leftJoinRows_cons]; exact List.mem_append_right _ ho, hp⟩

theorem mem_rightOnlyRows (ks : List String) (ls rs : List Row) (r : Row)
    (hr : r ∈ rs) (h : ∀ l ∈ ls, ¬ keyOf ks l = keyOf ks r) :
    r ∈ rightOnlyRows ks ls rs := by
  rw [rightOnlyRows, List.mem_filter]
  refine ⟨hr, ?_⟩
  simpa using h

theorem stream_success_of_nonempty (df : DataFrame) (tb : String) (f ok : Bool)
    (h : df.rows.isEmpty = false) :
    (stream_to_bigquery df tb f ok).success = ok := by
  cases ok <;> simp [stream_to_bigquery, h]

theorem routeOne_flag (tb : String) (df : DataFrame) (first ok : Bool) :
    (routeOne tb df first ok).1 = (first && !(!df.rows.isEmpty && ok)) := by
  by_cases h : df.rows.isEmpty
  · simp [routeOne, h]
  · have h2 : df.rows.isEmpty = false := by simpa using h
    cases ok <;> cases first <;> simp [routeOne, h2, stream_to_bigquery]

theorem driverStep_flag (tbls : TableIds) (st : Flags × RunLog) (o : Outcome) (t : Tbl) :
    ((driverStep tbls st o).1).get t = (st.1.get t && !(tblWriteOk t o)) := by
  cases o with
  | error e => cases t <;> simp [driverStep, tblWriteOk, Flags.get]
  | ok p =>
      obtain ⟨d, b⟩ := p
      cases t <;>
        simp [driverStep, tblWriteOk, Flags.get, AccountData.dfOf, BqOks.okOf,
          routeOne_flag]

theorem driverFold_flag (tbls : TableIds) (os : List Outcome) (st : Flags × RunLog)
    (t : Tbl) :
    ((os.foldl (driverStep tbls) st).1).get t =
      (st.1.get t && !(os.any (tblWriteOk t))) := by
  induction os generalizing st with
  | nil => simp
  | cons o os ih =>
      rw [List.foldl_cons, ih, driverStep_flag, List.any_cons]
      rw [Bool.not_or, Bool.and_assoc]

theorem driverRun_flag (tbls : TableIds) (os : List Outcome) (t : Tbl) :
    ((driverRun tbls os).1).get t = !(os.any (tblWriteOk t)) := by
  rw [driverRun, driverFold_flag]
  cases t <;> simp [Flags.get]

theorem driverStep_consumed (tbls : TableIds) (st : Flags × RunLog) (o : Outcome) :
    ((driverStep tbls st o).2).consumed = st.2.consumed + 1 := by
  cases o with
  | error e => rfl
  | ok p => obtain ⟨d, b⟩ := p; rfl

theorem driverStep_failed (tbls : TableIds) (st : Flags × RunLog) (o : Outcome) :
    ((driverStep tbls st o).2).failed =
      st.2.failed + (if outcomeFailed o then 1 else 0) := by
  cases o with
  | error e => rfl
  | ok p => obtain ⟨d, b⟩ := p; rfl

theorem driverStep_delivered (tbls : TableIds) (st : Flags × RunLog) (o : Outcome) :
    ((driverStep tbls st o).2).delivered =
      st.2.delivered + (if outcomeFailed o then 0 else 1) := by
  cases o with
  | error e => rfl
  | ok p => obtain ⟨d, b⟩ := p; rfl

theorem driverFold_consumed (tbls : TableIds) (os : List Outcome) (st : Flags × RunLog) :
    ((os.foldl (driverStep tbls) st).2).consumed = st.2.consumed + os.length := by
  induction os generalizing st with
  | nil => rfl
  | cons o os ih =>
      rw [List.foldl_cons, ih, driverStep_consumed, List.length_cons]
      omega

theorem driverFold_failed (tbls : TableIds) (os : List Outcome) (st : Flags × RunLog) :
    ((os.foldl (driverStep tbls) st).2).failed =
      st.2.failed + (os.filter outcomeFailed).length := by
  induction os generalizing st with
  | nil => rfl
  | cons o os ih =>
      rw [List.foldl_cons, ih, driverStep_failed, List.filter_cons]
      by_cases h : outcomeFailed o = true
      · rw [if_pos h, if_pos h, List.length_cons]
        omega
      · rw [if_neg h, if_neg h]
        omega

theorem driverFold_delivered (tbls : TableIds) (os : List Outcome) (st : Flags × RunLog) :
    ((os.foldl (driverStep tbls) st).2).delivered =
      st.2.delivered + (os.filter (fun o => !(outcomeFailed o))).length := by
  induction os generalizing st with
  | nil => rfl
  | cons o os ih =>
      rw [List.foldl_cons, ih, driverStep_delivered, List.filter_cons]
      by_cases h : outcomeFailed o = true
      · rw [if_pos h, if_neg (by simp [h])]
        omega
      · rw [if_neg h, if_pos (by simp [h])]
        rw [List.length_cons]
        omega

theorem tblWriteOk_eq_proj (t : Tbl) (o : Outcome) :
    tblWriteOk t o = projWriteOk (tblProj t o) := by
  cases o with
  | error e => rfl
  | ok p => obtain ⟨d, b⟩ := p; rfl

theorem length_filter_not_add {α : Type} (l : List α) (p : α → Bool) :
    (l.filter (fun a => !(p a))).length + (l.filter p).length = l.length := by
  induction l with
  | nil => rfl
  | cons a t ih =>
      by_cases h : p a = true <;>
        simp [List.filter_cons, h] <;> omega

theorem mem_firstKeys_foldl (l : List String) (acc : List String) (k : String) :
    (k ∈ l.foldl (fun acc k => if k ∈ acc then acc else acc ++ [k]) acc) ↔
      k ∈ acc ∨ k ∈ l := by
  induction l generalizing acc with
  | nil => simp
  | cons a t ih =>
      rw [List.foldl_cons, ih]
      by_cases h : a ∈ acc
      · rw [if_pos h]
        simp only [List.mem_cons]
        constructor
        · rintro (h1 | h2)
          · exact Or.inl h1
          · exact Or.inr (Or.inr h2)
        · rintro (h1 | rfl | h2)
          · exact Or.inl h1
          · exact Or.inl h
          · exact Or.inr h2
      · rw [if_neg h]
        simp only [List.mem_append, List.mem_singleton, List.mem_cons]
        tauto

theorem mem_firstKeys (l : List String) (k : String) :
    k ∈ firstKeys l ↔ k ∈ l := by
  rw [firstKeys, mem_firstKeys_foldl]
  simp

theorem firstKeys_concat (l : List String) (k : String) :
    firstKeys (l ++ [k]) =
      if k ∈ firstKeys l then firstKeys l else firstKeys l ++ [k] := by
  unfold firstKeys
  rw [List.foldl_append]
  rfl

theorem lastNameIn_concat (rows : List (String × String)) (q : String × String)
    (k : String) :
    lastNameIn (rows ++ [q]) k =
      if q.1 = k then some q.2 else lastNameIn rows k := by
  unfold lastNameIn
  rw [List.filter_append]
  by_cases h : q.1 = k
  · rw [if_pos h]
    simp [List.filter_cons, h, List.getLast?_concat]
  · rw [if_neg h]
    simp [List.filter_cons, h]

theorem dictInsert_keys (d : List (String × String)) (k v : String) :
    (dictInsert d k v).map Prod.fst =
      if k ∈ d.map Prod.fst then d.map Prod.fst else d.map Prod.fst ++ [k] := by
  unfold dictInsert
  by_cases h : k ∈ d.map Prod.fst
  · rw [if_pos h, if_pos h, List.map_map]
    apply List.map_congr_left
    intro p _
    by_cases hp : p.1 = k
    · simp [hp]
    · simp [hp]
  · rw [if_neg h, if_neg h, List.map_append]
    rfl

theorem dictFold_inv (qs : List (String × String)) (d ps : List (String × String))
    (h1 : d.map Prod.fst = firstKeys (ps.map Prod.fst))
    (h2 : (d.map Prod.fst).Nodup)
    (h3 : ∀ p ∈ d, lastNameIn ps p.1 = some p.2) :
    ((qs.foldl (fun d q => dictInsert d q.1 q.2) d).map Prod.fst =
        firstKeys ((ps ++ qs).map Prod.fst))
    ∧ ((qs.foldl (fun d q => dictInsert d q.1 q.2) d).map Prod.fst).Nodup
    ∧ (∀ p ∈ qs.foldl (fun d q => dictInsert d q.1 q.2) d,
        lastNameIn (ps ++ qs) p.1 = some p.2) := by
  induction qs generalizing d ps with
  | nil =>
      rw [List.foldl_nil, List.append_nil]
      exact ⟨h1, h2, h3⟩
  | cons q qs ih =>
      rw [List.foldl_cons]
      have e : ps ++ q :: qs = (ps ++ [q]) ++ qs := by simp
      rw [e]
      apply ih
      · rw [dictInsert_keys, h1]
        simp only [List.map_append, List.map_cons, List.map_nil]
        rw [firstKeys_concat]
      · rw [dictInsert_keys]
        by_cases h : q.1 ∈ d.map Prod.fst
        · rw [if_pos h]
          exact h2
        · rw [if_neg h]
          simp only [List.nodup_append, List.nodup_cons, List.nodup_nil,
            List.disjoint_singleton]
          exact ⟨h2, by simp, by simpa using h⟩
      · intro p hp
        unfold dictInsert at hp
        by_cases h : q.1 ∈ d.map Prod.fst
        · rw [if_pos h] at hp
          obtain ⟨p0, hp0, hq⟩ := List.mem_map.mp hp
          by_cases h0 : p0.1 = q.1
          · rw [if_pos h0] at hq
            rw [← hq, lastNameIn_concat, if_pos rfl]
          · rw [if_neg h0] at hq
            rw [← hq, lastNameIn_concat, if_neg (fun e2 => h0 e2.symm)]
            exact h3 p0 hp0
        · rw [if_neg h] at hp
          rcases List.mem_append.mp hp with hold | hnew
          · have hne : ¬ q.1 = p.1 := by
              intro e2
              exact h (e2 ▸ List.mem_map_of_mem Prod.fst hold)
            rw [lastNameIn_concat, if_neg hne]
            exact h3 p hold
          · rw [List.mem_singleton.mp hnew, lastNameIn_concat, if_pos rfl]

theorem discovery_fold_eq (rows : List (String × String)) :
    rows.foldl (fun d p => dictInsert d (lastSegment p.1) p.2) [] =
      (rows.map (fun p => (lastSegment p.1, p.2))).foldl
        (fun d q => dictInsert d q.1 q.2) [] := by
  rw [List.foldl_map]

/-- C5: The process exit code is 1 exactly when a setup error (missing
credential file, client initialization failure) or an Account Discovery
source error occurs; in the discovery-error case no extraction is
attempted and no writes occur; when setup and discovery succeed the exit
code is 0 whatever the per-account extraction and sink write outcomes
are. -/
theorem C5_exit_code_policy (ke ci : Bool) (disc : Except Unit (List (String × String)))
    (tbls : TableIds) (osOf : List Account → List Outcome) :
    ((mainRun ke ci disc tbls osOf).exitCode = 1 ↔
      (ke = false ∨ ci = false ∨ exOk disc = false))
    ∧ (exOk disc = false →
        (mainRun ke ci disc tbls osOf).extractionAttempted = false
        ∧ (mainRun ke ci disc tbls osOf).log.writes = [])
    ∧ (ke = true → ci = true → exOk disc = true →
        (mainRun ke ci disc tbls osOf).exitCode = 0) := by
  cases ke <;> cases ci <;> cases disc <;>
    simp [mainRun, exOk, get_active_client_accounts, RunLog.init]

/-- C5 witness: with the key file present, the client initialized and a
discovery error, the run exits 1 with no extraction and no writes; with
discovery succeeding it exits 0. -/
theorem C5_exit_code_policy_witness :
    (mainRun true true (.error ()) ⟨"m", "g", "s"⟩ (fun _ => [])).exitCode = 1
    ∧ (mainRun true true (.error ()) ⟨"m", "g", "s"⟩ (fun _ => [])).extractionAttempted = false
    ∧ (mainRun true true (.error ()) ⟨"m", "g", "s"⟩ (fun _ => [])).log.writes = []
    ∧ (mainRun true true (.ok []) ⟨"m", "g", "s"⟩ (fun _ => [])).exitCode = 0 := by
  obtain ⟨h1, h2, _⟩ := C5_exit_code_policy true true (.error ()) ⟨"m", "g", "s"⟩ (fun _ => [])
  obtain ⟨_, _, g3⟩ := C5_exit_code_policy true true (.ok []) ⟨"m", "g", "s"⟩ (fun _ => [])
  exact ⟨h1.mpr (Or.inr (Or.inr rfl)), (h2 rfl).1, (h2 rfl).2, g3 rfl rfl rfl⟩

/-- C6: Account Discovery returns accounts deduplicated by id, the name
of each account being the last one the source reported for that id, each
account sitting at its first-discovery position, the whole sequence in
discovery order with no duplicate ids. -/
theorem C6_discovery_dedup (rows : List (String × String)) (accs : List Account)
    (h : get_active_client_accounts (.ok rows) = .ok accs) :
    accs.map Account.id = firstKeys (rows.map (fun p => lastSegment p.1))
    ∧ (accs.map Account.id).Nodup
    ∧ (∀ a ∈ accs,
        lastNameIn (rows.map (fun p => (lastSegment p.1, p.2))) a.id = some a.name) := by
  have hkeys : ((rows.map (fun p => (lastSegment p.1, p.2))).map Prod.fst)
      = rows.map (fun p => lastSegment p.1) := by
    rw [List.map_map]
    rfl
  obtain ⟨i1, i2, i3⟩ := dictFold_inv (rows.map (fun p => (lastSegment p.1, p.2))) [] []
    rfl List.nodup_nil (by intro p hp; cases hp)
  rw [List.nil_append] at i1 i3
  rw [hkeys] at i1
  have h3 : Except.ok ((rows.foldl (fun d p => dictInsert d (lastSegment p.1) p.2)
      []).map (fun p => Account.mk p.1 p.2)) = Except.ok accs := h
  have h4 := Except.ok.inj h3
  rw [discovery_fold_eq] at h4
  refine ⟨?_, ?_, ?_⟩
  · rw [← h4, List.map_map]
    exact i1
  · rw [← h4, List.map_map]
    exact i2
  · intro a ha
    rw [← h4] at ha
    obtain ⟨p, hp, rfl⟩ := List.mem_map.mp ha
    exact i3 p hp

/-- C6 witness: three discovery rows where id 111 appears first and last
with different names yield the two accounts in first-discovery order,
the name of 111 being the last seen. -/
theorem C6_discovery_dedup_witness :
    ([Account.mk "111" "Last", Account.mk "222" "B"].map Account.id =
      firstKeys ([("a/111", "First"), ("b/222", "B"), ("c/111", "Last")].map
        (fun p => lastSegment p.1)))
    ∧ (([Account.mk "111" "Last", Account.mk "222" "B"].map Account.id).Nodup)
    ∧ (∀ a ∈ [Account.mk "111" "Last", Account.mk "222" "B"],
        lastNameIn ([("a/111", "First"), ("b/222", "B"), ("c/111", "Last")].map
          (fun p => (lastSegment p.1, p.2))) a.id = some a.name) :=
  C6_discovery_dedup [("a/111", "First"), ("b/222", "B"), ("c/111", "Last")]
    [Account.mk "111" "Last", Account.mk "222" "B"] (by rfl)

/-- C2: over N discovered accounts (distinct ids) of which exactly K
raise an exception escaping their extraction, each account is submitted
exactly once, the loop consumes exactly N completed results in completion
order, reports exactly K failures without terminating the run, and the
remaining N minus K results are delivered to the sink writer. -/
theorem C2_fanout_counts (accounts completion : List Account)
    (outcome : Account → Outcome) (tbls : TableIds)
    (hnodup : (accounts.map Account.id).Nodup)
    (hperm : completion.Perm accounts) :
    (submittedTasks accounts).length = accounts.length
    ∧ (∀ a ∈ accounts, (submittedTasks accounts).count a = 1)
    ∧ ((driverRun tbls (completion.map outcome)).2).consumed = accounts.length
    ∧ ((driverRun tbls (completion.map outcome)).2).failed =
        (accounts.filter (fun a => outcomeFailed (outcome a))).length
    ∧ ((driverRun tbls (completion.map outcome)).2).delivered =
        accounts.length - (accounts.filter (fun a => outcomeFailed (outcome a))).length := by
  have hlen : completion.length = accounts.length := hperm.length_eq
  have hfail : ((completion.map outcome).filter outcomeFailed).length =
      (accounts.filter (fun a => outcomeFailed (outcome a))).length := by
    rw [List.filter_map, List.length_map]
    exact (hperm.filter _).length_eq
  have hsplit := length_filter_not_add (completion.map outcome) outcomeFailed
  refine ⟨rfl, ?_, ?_, ?_, ?_⟩
  · intro a ha
    exact List.count_eq_one_of_mem (List.Nodup.of_map Account.id hnodup) ha
  · simp only [driverRun, driverFold_consumed, RunLog.init, List.length_map]
    omega
  · simp only [driverRun, driverFold_failed, RunLog.init]
    omega
  · simp only [driverRun, driverFold_delivered, RunLog.init]
    have hlen2 : (completion.map outcome).length = accounts.length := by
      rw [List.length_map]
      exact hlen
    omega

/-- C2 witness: three accounts of which the middle one (by completion
order) fails give three consumed results, one failure, two deliveries,
and each account counted once among the submissions. -/
theorem C2_fanout_counts_witness :
    (submittedTasks [⟨"1", "a"⟩, ⟨"2", "b"⟩, ⟨"3", "c"⟩]).length = 3
    ∧ (∀ a ∈ [Account.mk "1" "a", Account.mk "2" "b", Account.mk "3" "c"],
        (submittedTasks [⟨"1", "a"⟩, ⟨"2", "b"⟩, ⟨"3", "c"⟩]).count a = 1)
    ∧ ((driverRun ⟨"m", "g", "s"⟩
        ([Account.mk "3" "c", Account.mk "2" "b", Account.mk "1" "a"].map
          (fun a => if a.id = "2" then Except.error "boom"
            else Except.ok (⟨a.name, emptyDF, emptyDF, emptyDF⟩, ⟨true, true, true⟩)))).2).consumed = 3
    ∧ ((driverRun ⟨"m", "g", "s"⟩
        ([Account.mk "3" "c", Account.mk "2" "b", Account.mk "1" "a"].map
          (fun a => if a.id = "2" then Except.error "boom"
            else Except.ok (⟨a.name, emptyDF, emptyDF, emptyDF⟩, ⟨true, true, true⟩)))).2).failed = 1
    ∧ ((driverRun ⟨"m", "g", "s"⟩
        ([Account.mk "3" "c", Account.mk "2" "b", Account.mk "1" "a"].map
          (fun a => if a.id = "2" then Except.error "boom"
            else Except.ok (⟨a.name, emptyDF, emptyDF, emptyDF⟩, ⟨true, true, true⟩)))).2).delivered = 2 := by
  obtain ⟨h1, h2, h3, h4, h5⟩ := C2_fanout_counts
    [⟨"1", "a"⟩, ⟨"2", "b"⟩, ⟨"3", "c"⟩]
    [⟨"3", "c"⟩, ⟨"2", "b"⟩, ⟨"1", "a"⟩]
    (fun a => if a.id = "2" then Except.error "boom"
      else Except.ok (⟨a.name, emptyDF, emptyDF, emptyDF⟩, ⟨true, true, true⟩))
    ⟨"m", "g", "s"⟩ (by decide) (by decide)
  refine ⟨h1, h2, h3, ?_, ?_⟩
  · rw [h4]
    decide
  · rw [h5]
    decide

theorem astype_fold_str (cs : List String) (df : DataFrame) (c : String)
    (hstr : ∀ r ∈ df.rows, ∃ s, rowGet r c = Val.str s) :
    ∀ r ∈ (cs.foldl (fun d c => if c ∈ d.cols then DataFrame.mk d.cols
        (d.rows.map (fun r => rowSet r c (Val.str (pyStr (rowGet r c))))) else d)
      df).rows, ∃ s, rowGet r c = Val.str s := by
  induction cs generalizing df with
  | nil => exact hstr
  | cons c0 t ih =>
      rw [List.foldl_cons]
      by_cases h : c0 ∈ df.cols
      · rw [if_pos h]
        apply ih
        intro r hr
        obtain ⟨r0, hr0, rfl⟩ := List.mem_map.mp hr
        by_cases hcc : c0 = c
        · subst hcc
          exact ⟨_, rowGet_rowSet_self r0 c0 _⟩
        · rw [rowGet_rowSet_ne r0 c0 c _ (fun e => hcc e.symm)]
          exact hstr r0 hr0
      · rw [if_neg h]
        exact ih df hstr

theorem astype_fold_makes_str (cs : List String) (df : DataFrame) (c : String)
    (hc : c ∈ cs) (hcol : c ∈ df.cols) :
    ∀ r ∈ (cs.foldl (fun d c => if c ∈ d.cols then DataFrame.mk d.cols
        (d.rows.map (fun r => rowSet r c (Val.str (pyStr (rowGet r c))))) else d)
      df).rows, ∃ s, rowGet r c = Val.str s := by
  induction cs generalizing df with
  | nil => cases hc
  | cons c0 t ih =>
      rw [List.foldl_cons]
      rcases List.mem_cons.mp hc with rfl | hct
      · rw [if_pos hcol]
        apply astype_fold_str
        intro r hr
        obtain ⟨r0, hr0, rfl⟩ := List.mem_map.mp hr
        exact ⟨_, rowGet_rowSet_self r0 c _⟩
      · by_cases h : c0 ∈ df.cols
        · rw [if_pos h]
          exact ih _ hct hcol
        · rw [if_neg h]
          exact ih df hct hcol

/-- C10: stream_to_bigquery mutates its input in place: for a non-empty
frame, each of the id columns campaign_id, ad_group_id and customer_id
that is present is converted to string cells in the caller-visible frame,
the converted frame is exactly what the load is attempted with (before
the write), and the mutation is the same whether the load then succeeds
or fails. -/
theorem C10_stream_mutates_in_place (df : DataFrame) (tb : String) (first ok : Bool)
    (h : df.rows.isEmpty = false) :
    ((stream_to_bigquery df tb first ok).visible = astypeStrCols df)
    ∧ (∀ c ∈ idCols, c ∈ df.cols →
        ∀ r ∈ (stream_to_bigquery df tb first ok).visible.rows,
          ∃ s, rowGet r c = Val.str s)
    ∧ ((stream_to_bigquery df tb first ok).attempted =
        some (astypeStrCols df, if first then "WRITE_TRUNCATE" else "WRITE_APPEND"))
    ∧ ((stream_to_bigquery df tb first true).visible =
        (stream_to_bigquery df tb first false).visible) := by
  have hv : ∀ ok2 : Bool, (stream_to_bigquery df tb first ok2).visible = astypeStrCols df := by
    intro ok2
    cases ok2 <;> simp [stream_to_bigquery, h]
  refine ⟨hv ok, ?_, ?_, by rw [hv true, hv false]⟩
  · intro c hc hcol r hr
    rw [hv ok] at hr
    exact astype_fold_makes_str idCols df c hc hcol r hr
  · cases ok <;> simp [stream_to_bigquery, h]

/-- C10 witness: a one-row frame with an integer campaign_id cell, sent
with a failing load, still has its campaign_id cell converted to a
string in the caller-visible frame. -/
theorem C10_stream_mutates_in_place_witness :
    ((stream_to_bigquery ⟨["campaign_id", "clicks"],
        [[("campaign_id", Val.num 5), ("clicks", Val.num 2)]]⟩ "t" true false).visible =
      astypeStrCols ⟨["campaign_id", "clicks"],
        [[("campaign_id", Val.num 5), ("clicks", Val.num 2)]]⟩)
    ∧ (∀ c ∈ idCols, c ∈ (DataFrame.mk ["campaign_id", "clicks"]
          [[("campaign_id", Val.num 5), ("clicks", Val.num 2)]]).cols →
        ∀ r ∈ (stream_to_bigquery ⟨["campaign_id", "clicks"],
            [[("campaign_id", Val.num 5), ("clicks", Val.num 2)]]⟩ "t" true false).visible.rows,
          ∃ s, rowGet r c = Val.str s)
    ∧ ((stream_to_bigquery ⟨["campaign_id", "clicks"],
        [[("campaign_id", Val.num 5), ("clicks", Val.num 2)]]⟩ "t" true false).attempted =
        some (astypeStrCols ⟨["campaign_id", "clicks"],
          [[("campaign_id", Val.num 5), ("clicks", Val.num 2)]]⟩,
          if true then "WRITE_TRUNCATE" else "WRITE_APPEND"))
    ∧ ((stream_to_bigquery ⟨["campaign_id", "clicks"],
        [[("campaign_id", Val.num 5), ("clicks", Val.num 2)]]⟩ "t" true true).visible =
        (stream_to_bigquery ⟨["campaign_id", "clicks"],
          [[("campaign_id", Val.num 5), ("clicks", Val.num 2)]]⟩ "t" true false).visible) :=
  C10_stream_mutates_in_place ⟨["campaign_id", "clicks"],
    [[("campaign_id", Val.num 5), ("clicks", Val.num 2)]]⟩ "t" true false rfl

/-- C1: each WriteState flag starts as first-batch (not yet written),
flips exactly when a write to its table has returned success, never
flips back as the run extends, a skipped or failed write leaves it
unchanged so a later successful first write still carries the
WRITE_TRUNCATE disposition, and the flag of one table depends only on
the outcomes projected to that table, so a failure on another table
cannot change it. -/
theorem C1_writestate_flags :
    (∀ (tbls : TableIds) (t : Tbl), ((driverRun tbls []).1).get t = true)
    ∧ (∀ (tbls : TableIds) (os : List Outcome) (t : Tbl),
        (((driverRun tbls os).1).get t = false ↔ os.any (tblWriteOk t) = true))
    ∧ (∀ (tbls : TableIds) (os os2 : List Outcome) (t : Tbl),
        ((driverRun tbls os).1).get t = false →
        ((driverRun tbls (os ++ os2)).1).get t = false)
    ∧ (∀ (tb : String) (df : DataFrame) (first ok : Bool), ok = false →
        (routeOne tb df first ok).1 = first)
    ∧ (∀ (tb : String) (df : DataFrame) (ok : Bool) (w : WriteRec),
        w ∈ (routeOne tb df true ok).2.1 → w.disposition = "WRITE_TRUNCATE")
    ∧ (∀ (tbls : TableIds) (os os2 : List Outcome) (t : Tbl),
        os.map (tblProj t) = os2.map (tblProj t) →
        ((driverRun tbls os).1).get t = ((driverRun tbls os2).1).get t) := by
  refine ⟨?_, ?_, ?_, ?_, ?_, ?_⟩
  · intro tbls t
    rw [driverRun_flag]
    simp
  · intro tbls os t
    rw [driverRun_flag]
    simp
  · intro tbls os os2 t h
    rw [driverRun_flag] at h ⊢
    rw [List.any_append]
    simp at h
    simp [h]
  · intro tb df first ok h
    subst h
    rw [routeOne_flag]
    simp
  · intro tb df ok w hw
    by_cases h : df.rows.isEmpty
    · simp [routeOne, h] at hw
    · have h2 : df.rows.isEmpty = false := by simpa using h
      cases ok <;> simp [routeOne, stream_to_bigquery, h2] at hw <;> rw [hw]
  · intro tbls os os2 t h
    have key : ∀ (l : List Outcome), l.any (tblWriteOk t) =
        (l.map (tblProj t)).any projWriteOk := by
      intro l
      induction l with
      | nil => rfl
      | cons o l2 ih =>
          rw [List.map_cons, List.any_cons, List.any_cons, ih, tblWriteOk_eq_proj]
    rw [driverRun_flag, driverRun_flag, key, key, h]

/-- C1 witness: the main-table flag flips after one successful write and
stays flipped when the run extends; a failed write leaves the flag set; a
write dispatched with the flag set carries WRITE_TRUNCATE; two runs whose
geography projections agree give the same geography flag. -/
theorem C1_writestate_flags_witness :
    ((driverRun ⟨"m", "g", "s"⟩
        ([Except.ok (⟨"a", ⟨["campaign_id"], [[("campaign_id", Val.str "1")]]⟩,
            emptyDF, emptyDF⟩, ⟨true, true, true⟩)] ++ [])).1).get Tbl.tMain = false
    ∧ (routeOne "m" ⟨["campaign_id"], [[("campaign_id", Val.str "1")]]⟩ true false).1 = true
    ∧ (WriteRec.mk "m" "WRITE_TRUNCATE" true).disposition = "WRITE_TRUNCATE"
    ∧ ((driverRun ⟨"m", "g", "s"⟩ [Except.error "x"]).1).get Tbl.tGeo
        = ((driverRun ⟨"m", "g", "s"⟩ [Except.error "y"]).1).get Tbl.tGeo := by
  obtain ⟨h1, h2, h3, h4, h5, h6⟩ := C1_writestate_flags
  refine ⟨?_, ?_, ?_, ?_⟩
  · exact h3 ⟨"m", "g", "s"⟩
      [Except.ok (⟨"a", ⟨["campaign_id"], [[("campaign_id", Val.str "1")]]⟩,
        emptyDF, emptyDF⟩, ⟨true, true, true⟩)] [] Tbl.tMain (by decide)
  · exact h4 "m" ⟨["campaign_id"], [[("campaign_id", Val.str "1")]]⟩ true false rfl
  · exact h5 "m" ⟨["campaign_id"], [[("campaign_id", Val.str "1")]]⟩ true
      (WriteRec.mk "m" "WRITE_TRUNCATE" true) (by decide)
  · exact h6 ⟨"m", "g", "s"⟩ [Except.error "x"] [Except.error "y"] Tbl.tGeo (by decide)

/-- C4 counterexample: when the standard sub-task metrics query succeeds
with one row and its conversions query then raises, the sub-task output
is NOT degraded to an empty RecordSet: the already-fetched metrics row is
kept, refuting the claim that a source-level error during the sub-task
queries always degrades the sub-task to empty. -/
theorem C4_counterexample :
    ((get_all_campaign_data_for_account "111" "Acme" (.ok [])
        (.ok [⟨1, "camp", "ENABLED", 2, "ag", "2024-01-01", 3, 4, 5000000⟩])
        (.error ()) (.ok []) (.ok [])).1).rows.isEmpty = false := by
  decide

/-- C4 amended: a source-level error in the PMax, geography or
search-term sub-task, or in the standard sub-task metrics query, is
caught, logged with the account context, and degrades that sub-task to an
empty RecordSet; an error in the standard conversions query after the
metrics query succeeded is caught and logged but keeps the fetched
metrics rows; each sub-task of an account is computed from its own
responses only, so an error in one aborts neither the other sub-tasks nor
other accounts. -/
theorem C4_subtask_error_isolation :
    (∀ (cid aname : String) (budgets : List (String × Rat))
        (convResp : Except Unit (List StdConvRow)),
      stdDfsOf cid aname budgets (.error ()) convResp =
        (emptyDF, emptyDF, [handleAdsException cid "Standard Campaigns"]))
    ∧ (∀ (cid aname : String) (budgets : List (String × Rat)) (stds : List StdRow),
      stdDfsOf cid aname budgets (.ok stds) (.error ()) =
        (dfOfDicts stdCols (stds.map (stdRowDict budgets aname)), emptyDF,
         [handleAdsException cid "Standard Campaigns"]))
    ∧ (∀ (cid aname : String) (genResp : Except Unit (List PmaxRow))
        (convResp : Except Unit (List PmaxConvRow)),
      (genResp = .error () ∨ convResp = .error ()) →
      load_pmax_data cid aname genResp convResp =
        (emptyDF, [handleAdsException cid "PMax"]))
    ∧ (∀ cid aname : String,
      get_geo_data_for_account cid aname (.error ()) =
        (emptyDF, [handleAdsException cid "GEO"]))
    ∧ (∀ cid aname : String,
      get_search_query_data_for_account cid aname (.error ()) =
        (emptyDF, [handleAdsException cid "Search Query"]))
    ∧ (∀ (acc : Account) (resp : AccountResponses),
      ((process_one_account acc resp).1.geo =
        (get_geo_data_for_account acc.id acc.name resp.geo).1)
      ∧ ((process_one_account acc resp).1.search =
        (get_search_query_data_for_account acc.id acc.name resp.search).1)
      ∧ ((process_one_account acc resp).1.camp =
        (get_all_campaign_data_for_account acc.id acc.name resp.budget resp.std
          resp.stdConv resp.pmaxGen resp.pmaxConv).1)) := by
  refine ⟨fun cid aname budgets convResp => rfl,
    fun cid aname budgets stds => rfl, ?_,
    fun cid aname => rfl, fun cid aname => rfl,
    fun acc resp => ⟨rfl, rfl, rfl⟩⟩
  intro cid aname genResp convResp h
  cases genResp with
  | error u => rfl
  | ok gens =>
      cases convResp with
      | error u => rfl
      | ok convs =>
          rcases h with h1 | h2
          · exact absurd h1 (by simp)
          · exact absurd h2 (by simp)

/-- C4 witness: with the PMax general query failing, the PMax sub-task
yields the empty frame and the PMax error log. -/
theorem C4_subtask_error_isolation_witness :
    load_pmax_data "111" "Acme" (.error ()) (.ok []) =
      (emptyDF, [handleAdsException "111" "PMax"]) := by
  obtain ⟨_, _, h3, _⟩ := C4_subtask_error_isolation
  exact h3 "111" "Acme" (.error ()) (.ok []) (Or.inl rfl)

/-- C8 counterexample: a campaign-budget lookup failure (with every other
query succeeding and empty) is caught by a bare pass and the whole
campaign extraction emits no log line at all, refuting the claim that
every caught error branch emits a log identifying the account or table. -/
theorem C8_counterexample :
    (get_all_campaign_data_for_account "111" "Acme" (.error ())
      (.ok []) (.ok []) (.ok []) (.ok [])).2 = [] := rfl

/-- C8 amended: sub-task query errors are logged with the account id and
context, sink write failures are logged with the table id, an
account-level thread failure is logged with the exception text only
(without the account identity), and the campaign-budget secondary-lookup
failure is swallowed silently with no log line. -/
theorem C8_error_reporting :
    (∀ (cid aname : String) (budgets : List (String × Rat))
        (convResp : Except Unit (List StdConvRow)),
      (stdDfsOf cid aname budgets (.error ()) convResp).2.2 =
        [Log.adsError cid "Standard Campaigns"])
    ∧ (∀ (cid aname : String) (budgets : List (String × Rat)) (stds : List StdRow),
      (stdDfsOf cid aname budgets (.ok stds) (.error ())).2.2 =
        [Log.adsError cid "Standard Campaigns"])
    ∧ (∀ (cid aname : String) (convResp : Except Unit (List PmaxConvRow)),
      (load_pmax_data cid aname (.error ()) convResp).2 = [Log.adsError cid "PMax"])
    ∧ (∀ (cid aname : String) (gens : List PmaxRow),
      (load_pmax_data cid aname (.ok gens) (.error ())).2 = [Log.adsError cid "PMax"])
    ∧ (∀ cid aname : String,
      (get_geo_data_for_account cid aname (.error ())).2 = [Log.adsError cid "GEO"])
    ∧ (∀ cid aname : String,
      (get_search_query_data_for_account cid aname (.error ())).2 =
        [Log.adsError cid "Search Query"])
    ∧ (∀ (df : DataFrame) (tb : String) (first : Bool), df.rows.isEmpty = false →
      (stream_to_bigquery df tb first false).logs = [Log.bqError tb])
    ∧ (∀ (tbls : TableIds) (st : Flags × RunLog) (e : String),
      ((driverStep tbls st (.error e)).2).logs = st.2.logs ++ [Log.threadError e])
    ∧ (∀ cid aname : String,
      (get_all_campaign_data_for_account cid aname (.error ())
        (.ok []) (.ok []) (.ok []) (.ok [])).2 = []) := by
  refine ⟨fun cid aname budgets convResp => rfl,
    fun cid aname budgets stds => rfl,
    fun cid aname convResp => ?_,
    fun cid aname gens => rfl,
    fun cid aname => rfl, fun cid aname => rfl,
    ?_, fun tbls st e => rfl, fun cid aname => rfl⟩
  · cases convResp with
    | error u => rfl
    | ok convs => rfl
  · intro df tb first h
    simp [stream_to_bigquery, h]

/-- C8 witness: a failing write of a one-row frame logs the table id. -/
theorem C8_error_reporting_witness :
    (stream_to_bigquery ⟨["x"], [[("x", Val.str "1")]]⟩ "proj.ds.tbl" true false).logs =
      [Log.bqError "proj.ds.tbl"] := by
  obtain ⟨_, _, _, _, _, _, h7, _⟩ := C8_error_reporting
  exact h7 ⟨["x"], [[("x", Val.str "1")]]⟩ "proj.ds.tbl" true rfl

/-- C7 counterexample: in the single-account script, a run in which the
standard and PMax queries all return empty reaches the unguarded
multi-column fillna with a frame that has no columns and raises KeyError,
refuting the claim that empty data is benign at every stage. -/
theorem C7_counterexample :
    client_load_all_campaign_data (.ok []) (.ok []) (.ok []) (.ok []) =
      .error ClientErr.keyError := rfl

/-- C7 amended: in the MCC pipeline empty data is benign: a sub-task
both of whose queries return empty yields an empty RecordSet and no
error log at every stage, and the Sink Writer invoked with an empty
RecordSet performs no write, reports no error, and leaves the WriteState
flag unchanged; in the single-account variant, however, the run whose
standard and PMax queries all return empty raises a missing-column
KeyError at the final fillna instead of being benign. -/
theorem C7_empty_benign :
    (∀ (cid aname : String) (budgets : List (String × Rat)),
      stdDfsOf cid aname budgets (.ok []) (.ok []) = (emptyDF, emptyDF, []))
    ∧ (∀ aname : String, combineStd aname emptyDF emptyDF = emptyDF)
    ∧ (∀ cid aname : String, load_pmax_data cid aname (.ok []) (.ok []) = (emptyDF, []))
    ∧ (∀ cid aname : String,
      get_all_campaign_data_for_account cid aname (.ok []) (.ok []) (.ok [])
        (.ok []) (.ok []) = (emptyDF, []))
    ∧ (∀ cid aname : String, get_geo_data_for_account cid aname (.ok []) = (emptyDF, []))
    ∧ (∀ cid aname : String,
      get_search_query_data_for_account cid aname (.ok []) = (emptyDF, []))
    ∧ (∀ (df : DataFrame) (tb : String) (first ok : Bool), df.rows.isEmpty = true →
      stream_to_bigquery df tb first ok = ⟨false, df, none, []⟩)
    ∧ (∀ (tb : String) (df : DataFrame) (first ok : Bool), df.rows.isEmpty = true →
      routeOne tb df first ok = (first, [], []))
    ∧ (client_load_all_campaign_data (.ok []) (.ok []) (.ok []) (.ok []) =
        .error ClientErr.keyError) := by
  refine ⟨fun cid aname budgets => rfl, fun aname => rfl, fun cid aname => rfl,
    fun cid aname => rfl, fun cid aname => rfl, fun cid aname => rfl,
    ?_, ?_, rfl⟩
  · intro df tb first ok h
    simp [stream_to_bigquery, h]
  · intro tb df first ok h
    simp [routeOne, h]

/-- C7 witness: the sink writer on the empty frame is a no-op with no
error and an unchanged flag. -/
theorem C7_empty_benign_witness :
    stream_to_bigquery emptyDF "proj.ds.tbl" true true =
      ⟨false, emptyDF, none, []⟩
    ∧ routeOne "proj.ds.tbl" emptyDF true true = (true, [], []) := by
  obtain ⟨_, _, _, _, _, _, h7, h8, _⟩ := C7_empty_benign
  exact ⟨h7 emptyDF "proj.ds.tbl" true true rfl, h8 "proj.ds.tbl" emptyDF true true rfl⟩

theorem dfOfDicts_of_ne_nil (cols : List String) (rows : List Row) (h : rows ≠ []) :
    dfOfDicts cols rows = ⟨cols, rows⟩ := by
  unfold dfOfDicts
  rw [if_neg (by simpa using h)]

theorem leftJoinRows_cons_ne_nil (ks : List String) (l : Row) (t rs : List Row) :
    leftJoinRows ks (l :: t) rs ≠ [] := by
  rw [leftJoinRows_cons]
  cases hm : matchRows ks rs l <;> simp

theorem combineStd_nonempty (aname : String) (a b : DataFrame)
    (ha : a.rows.isEmpty = false) (hb : b.rows.isEmpty = false) :
    combineStd aname a b =
      fillnaCol (mergeOuter ["campaign_id", "ad_group_id", "date"] a b)
        "account_name" (Val.str aname) := by
  unfold combineStd
  rw [if_neg (by simp [ha]), if_neg (by simp [ha]), if_neg (by simp [hb])]

theorem finalizeCampaign_rows (cid : String) (a b : DataFrame)
    (h : (concatDF a b).rows.isEmpty = false)
    (hcs : "campaign_status" ∈ (concatDF a b).cols) :
    (finalizeCampaign cid a b).rows =
      (concatDF a b).rows.map (fun r =>
        fillRow "campaign_status" (Val.str "UNKNOWN")
          (rowSet (gFill zeroCols (concatDF a b).cols (Val.num 0) r)
            "customer_id" (Val.str cid))) := by
  unfold finalizeCampaign
  rw [if_neg (by simp [h])]
  have hcol2 : "campaign_status" ∈
      (setCol (fillnaPresent (concatDF a b) zeroCols (Val.num 0))
        "customer_id" (Val.str cid)).cols := by
    rw [mem_setCol_cols]
    left
    rw [fillnaPresent_cols]
    exact hcs
  rw [if_pos hcol2]
  show (((fillnaPresent (concatDF a b) zeroCols (Val.num 0)).rows.map
      (fun r => rowSet r "customer_id" (Val.str cid))).map
      (fillRow "campaign_status" (Val.str "UNKNOWN"))) = _
  rw [fillnaPresent_rows, List.map_map, List.map_map]
  rfl


theorem mem_finalizeCampaign_cols (cid : String) (a b : DataFrame)
    (h : (concatDF a b).rows.isEmpty = false)
    (hcs : "campaign_status" ∈ (concatDF a b).cols) (m : String) :
    m ∈ (finalizeCampaign cid a b).cols ↔
      m ∈ (concatDF a b).cols ∨ m = "customer_id" := by
  have hcol2 : "campaign_status" ∈
      (setCol (fillnaPresent (concatDF a b) zeroCols (Val.num 0))
        "customer_id" (Val.str cid)).cols := by
    rw [mem_setCol_cols]
    left
    rw [fillnaPresent_cols]
    exact hcs
  have e : (finalizeCampaign cid a b).cols =
      (setCol (fillnaPresent (concatDF a b) zeroCols (Val.num 0))
        "customer_id" (Val.str cid)).cols := by
    unfold finalizeCampaign
    rw [if_neg (by simp [h]), if_pos hcol2]
    rfl
  rw [e, mem_setCol_cols, fillnaPresent_cols]

theorem leftJoinRows_singleton_all_match (ks : List String) (l : Row) (rs : List Row)
    (hne : rs ≠ []) (hm : matchRows ks rs l = rs) :
    leftJoinRows ks [l] rs = rs.map (fun r => l ++ dropKeyCols ks r) := by
  cases rs with
  | nil => exact absurd rfl hne
  | cons r0 rt =>
      rw [leftJoinRows_cons, hm]
      simp [leftJoinRows]

theorem sumCol_const (rows : List Row) (c : String) (v : Rat)
    (h : ∀ r ∈ rows, rowGet r c = Val.num v) :
    rows.foldr (fun r a => valNum (rowGet r c) + a) 0 = rows.length * v := by
  induction rows with
  | nil => simp
  | cons r t ih =>
      rw [List.foldr_cons, ih (fun r2 h2 => h r2 (List.mem_cons_of_mem r h2)),
        h r (List.mem_cons_self r t), List.length_cons]
      simp only [valNum]
      push_cast
      ring

/-- C9: when the conversions query returns k rows all carrying the join
key (campaign, ad group, date) of one standard metrics row, the
outer-joined frame contains exactly k rows for that key, each repeating
the full clicks, impressions, cost and daily_budget cells of the metrics
side, so summing any of those measures over the frame counts the metric
k times. -/
theorem C9_duplicate_conversion_rows (cid aname : String)
    (budResp : Except Unit (List BudgetRow)) (s : StdRow) (cs : List StdConvRow)
    (hk : 2 ≤ cs.length)
    (hmatch : ∀ c ∈ cs, c.campaignId = s.campaignId
      ∧ c.adGroupId = s.adGroupId ∧ c.date = s.date) :
    let budgets := budgetsOf budResp
    let sd := stdDfsOf cid aname budgets (.ok [s]) (.ok cs)
    let out := combineStd aname sd.1 sd.2.1
    out.rows.length = cs.length
    ∧ (∀ r ∈ out.rows,
        rowGet r "clicks" = Val.num (s.clicks : Rat)
        ∧ rowGet r "impressions" = Val.num (s.impressions : Rat)
        ∧ rowGet r "cost" = Val.num ((s.costMicros : Rat) / 1000000)
        ∧ rowGet r "daily_budget" = Val.num (budgetGet budgets (toString s.campaignId)))
    ∧ sumCol out "clicks" = cs.length * (s.clicks : Rat)
    ∧ sumCol out "impressions" = cs.length * (s.impressions : Rat)
    ∧ sumCol out "cost" = cs.length * ((s.costMicros : Rat) / 1000000)
    ∧ sumCol out "daily_budget" = cs.length * budgetGet budgets (toString s.campaignId) := by
  intro budgets sd out
  have hcs_ne : cs ≠ [] := by
    intro e
    rw [e] at hk
    simp at hk
  have hmap_ne : cs.map stdConvRowDict ≠ [] := by
    intro e
    cases cs with
    | nil => exact hcs_ne rfl
    | cons a t => simp at e
  have hmap_isEmpty : (cs.map stdConvRowDict).isEmpty = false := by
    cases hcm : cs.map stdConvRowDict with
    | nil => exact absurd hcm hmap_ne
    | cons a t => rfl
  have h1 : sd.1 = DataFrame.mk stdCols [stdRowDict budgets aname s] :=
    dfOfDicts_of_ne_nil stdCols ([s].map (stdRowDict budgets aname)) (by simp)
  have h2 : sd.2.1 = DataFrame.mk stdConvCols (cs.map stdConvRowDict) :=
    dfOfDicts_of_ne_nil _ _ hmap_ne
  have hkey : ∀ c ∈ cs,
      keyOf ["campaign_id", "ad_group_id", "date"] (stdConvRowDict c)
      = keyOf ["campaign_id", "ad_group_id", "date"] (stdRowDict budgets aname s) := by
    intro c hc
    obtain ⟨e1, e2, e3⟩ := hmatch c hc
    show [Val.str (toString c.campaignId), Val.str (toString c.adGroupId),
        Val.str c.date] =
      [Val.str (toString s.campaignId), Val.str (toString s.adGroupId), Val.str s.date]
    rw [e1, e2, e3]
  have hmr : matchRows ["campaign_id", "ad_group_id", "date"] (cs.map stdConvRowDict)
      (stdRowDict budgets aname s) = cs.map stdConvRowDict := by
    apply List.filter_eq_self.mpr
    intro r hr
    obtain ⟨c, hc, rfl⟩ := List.mem_map.mp hr
    simp [hkey c hc]
  have hro : rightOnlyRows ["campaign_id", "ad_group_id", "date"]
      [stdRowDict budgets aname s] (cs.map stdConvRowDict) = [] := by
    apply List.filter_eq_nil_iff.mpr
    intro r hr
    obtain ⟨c, hc, rfl⟩ := List.mem_map.mp hr
    simp [hkey c hc]
  have hout_df : out = fillnaCol (mergeOuter ["campaign_id", "ad_group_id", "date"]
      (DataFrame.mk stdCols [stdRowDict budgets aname s])
      (DataFrame.mk stdConvCols (cs.map stdConvRowDict)))
      "account_name" (Val.str aname) := by
    show combineStd aname sd.1 sd.2.1 = _
    rw [h1, h2]
    exact combineStd_nonempty aname _ _ rfl hmap_isEmpty
  have hrows : out.rows = (cs.map stdConvRowDict).map (fun r =>
      fillRow "account_name" (Val.str aname)
        (stdRowDict budgets aname s ++
          dropKeyCols ["campaign_id", "ad_group_id", "date"] r)) := by
    rw [hout_df]
    show (leftJoinRows ["campaign_id", "ad_group_id", "date"]
        [stdRowDict budgets aname s] (cs.map stdConvRowDict) ++
      rightOnlyRows ["campaign_id", "ad_group_id", "date"]
        [stdRowDict budgets aname s] (cs.map stdConvRowDict)).map
        (fillRow "account_name" (Val.str aname)) = _
    rw [leftJoinRows_singleton_all_match _ _ _ hmap_ne hmr, hro,
      List.append_nil, List.map_map]
    rfl
  have hlen : out.rows.length = cs.length := by
    rw [hrows]
    simp
  have hvals : ∀ r ∈ out.rows,
      rowGet r "clicks" = Val.num (s.clicks : Rat)
      ∧ rowGet r "impressions" = Val.num (s.impressions : Rat)
      ∧ rowGet r "cost" = Val.num ((s.costMicros : Rat) / 1000000)
      ∧ rowGet r "daily_budget" = Val.num (budgetGet budgets (toString s.campaignId)) := by
    intro r hr
    rw [hrows] at hr
    obtain ⟨r1, hr1, rfl⟩ := List.mem_map.mp hr
    refine ⟨?_, ?_, ?_, ?_⟩
    · rw [rowGet_fillRow, if_neg (fun q => absurd q.1 (by decide)), rowGet_append,
        if_pos (show rowHas (stdRowDict budgets aname s) "clicks" = true from rfl)]
      rfl
    · rw [rowGet_fillRow, if_neg (fun q => absurd q.1 (by decide)), rowGet_append,
        if_pos (show rowHas (stdRowDict budgets aname s) "impressions" = true from rfl)]
      rfl
    · rw [rowGet_fillRow, if_neg (fun q => absurd q.1 (by decide)), rowGet_append,
        if_pos (show rowHas (stdRowDict budgets aname s) "cost" = true from rfl)]
      rfl
    · rw [rowGet_fillRow, if_neg (fun q => absurd q.1 (by decide)), rowGet_append,
        if_pos (show rowHas (stdRowDict budgets aname s) "daily_budget" = true from rfl)]
      rfl
  refine ⟨hlen, hvals, ?_, ?_, ?_, ?_⟩
  · show out.rows.foldr (fun r a => valNum (rowGet r "clicks") + a) 0 = _
    rw [sumCol_const out.rows "clicks" _ (fun r hr => (hvals r hr).1), hlen]
  · show out.rows.foldr (fun r a => valNum (rowGet r "impressions") + a) 0 = _
    rw [sumCol_const out.rows "impressions" _ (fun r hr => (hvals r hr).2.1), hlen]
  · show out.rows.foldr (fun r a => valNum (rowGet r "cost") + a) 0 = _
    rw [sumCol_const out.rows "cost" _ (fun r hr => (hvals r hr).2.2.1), hlen]
  · show out.rows.foldr (fun r a => valNum (rowGet r "daily_budget") + a) 0 = _
    rw [sumCol_const out.rows "daily_budget" _ (fun r hr => (hvals r hr).2.2.2), hlen]

/-- C9 witness: one metrics row and two conversion rows sharing its key
give a two-row join, each row repeating clicks 3, impressions 4, cost
5/1000000 and the looked-up budget, with the column sums doubling them. -/
theorem C9_duplicate_conversion_rows_witness :
    (let budgets := budgetsOf (Except.ok [] : Except Unit (List BudgetRow))
     let sd := stdDfsOf "111" "Acme" budgets
       (.ok [⟨1, "cmp", "ENABLED", 2, "ag", "2024-01-01", 3, 4, 5⟩])
       (.ok [⟨1, 2, "2024-01-01", "buy", 1⟩, ⟨1, 2, "2024-01-01", "call", 2⟩])
     let out := combineStd "Acme" sd.1 sd.2.1
     out.rows.length = 2
     ∧ (∀ r ∈ out.rows,
         rowGet r "clicks" = Val.num ((3 : Nat) : Rat)
         ∧ rowGet r "impressions" = Val.num ((4 : Nat) : Rat)
         ∧ rowGet r "cost" = Val.num (((5 : Nat) : Rat) / 1000000)
         ∧ rowGet r "daily_budget" = Val.num (budgetGet budgets (toString (1 : Nat))))
     ∧ sumCol out "clicks" = 2 * ((3 : Nat) : Rat)
     ∧ sumCol out "impressions" = 2 * ((4 : Nat) : Rat)
     ∧ sumCol out "cost" = 2 * (((5 : Nat) : Rat) / 1000000)
     ∧ sumCol out "daily_budget" = 2 * budgetGet budgets (toString (1 : Nat))) :=
  C9_duplicate_conversion_rows "111" "Acme" (Except.ok [])
    ⟨1, "cmp", "ENABLED", 2, "ag", "2024-01-01", 3, 4, 5⟩
    [⟨1, 2, "2024-01-01", "buy", 1⟩, ⟨1, 2, "2024-01-01", "call", 2⟩]
    (by decide) (by decide)

theorem finalize_row_fun_rowGet (cid : String) (C : List String) (r0 : Row)
    (m : String) (hm1 : m ≠ "customer_id") (hm2 : m ≠ "campaign_status") :
    rowGet (fillRow "campaign_status" (Val.str "UNKNOWN")
      (rowSet (gFill zeroCols C (Val.num 0) r0) "customer_id" (Val.str cid))) m
    = if m ∈ zeroCols ∧ m ∈ C ∧ rowGet r0 m = Val.null then Val.num 0
      else rowGet r0 m := by
  rw [rowGet_fillRow, if_neg (fun q => hm2 q.1), rowGet_rowSet_ne _ _ _ _ hm1,
    rowGet_gFill zeroCols C (Val.num 0) (by decide) r0 m]

theorem finalize_after_accfill_rowGet (cid aname : String) (C : List String)
    (r : Row) (m : String)
    (hm1 : m ≠ "customer_id") (hm2 : m ≠ "campaign_status")
    (hm3 : m ≠ "account_name") (hm4 : m ∉ zeroCols) :
    rowGet (fillRow "campaign_status" (Val.str "UNKNOWN")
      (rowSet (gFill zeroCols C (Val.num 0)
        (fillRow "account_name" (Val.str aname) r)) "customer_id" (Val.str cid))) m
    = rowGet r m := by
  rw [finalize_row_fun_rowGet cid C _ m hm1 hm2, if_neg (fun q => hm4 q.1),
    rowGet_fillRow, if_neg (fun q => hm3 q.1)]

theorem load_pmax_conv_empty (cid aname : String) (gens : List PmaxRow)
    (hg : gens.map (pmaxRowDict aname) ≠ []) :
    (load_pmax_data cid aname (.ok gens) (.ok [])).1 =
      DataFrame.mk pmaxCols (gens.map (pmaxRowDict aname)) := by
  have hge : (DataFrame.mk pmaxCols (gens.map (pmaxRowDict aname))).rows.isEmpty = false := by
    cases hc : gens.map (pmaxRowDict aname) with
    | nil => exact absurd hc hg
    | cons a t => rfl
  show (let pmax_df := dfOfDicts pmaxCols (gens.map (pmaxRowDict aname))
        let conv_df := dfOfDicts pmaxConvCols (([] : List PmaxConvRow).map pmaxConvRowDict)
        if pmax_df.rows.isEmpty ∧ conv_df.rows.isEmpty then emptyDF
        else if pmax_df.rows.isEmpty then
          setCol (setCol conv_df "account_name" (Val.str aname))
            "ad_group_name" (Val.str "Performance Max")
        else if conv_df.rows.isEmpty then pmax_df
        else
          let m := mergeOuter ["campaign_id", "date"] pmax_df conv_df
          if "account_name" ∈ m.cols then fillnaCol m "account_name" (Val.str aname)
          else m) = _
  rw [dfOfDicts_of_ne_nil pmaxCols _ hg]
  rw [if_neg (by simp [hge]), if_neg (by simp [hge]),
    if_pos (show (dfOfDicts pmaxConvCols
      (List.map pmaxConvRowDict ([] : List PmaxConvRow))).rows.isEmpty = true from rfl)]

theorem load_pmax_both_nonempty (cid aname : String) (gens : List PmaxRow)
    (pconvs : List PmaxConvRow)
    (hg : gens.map (pmaxRowDict aname) ≠ [])
    (hc : pconvs.map pmaxConvRowDict ≠ []) :
    (load_pmax_data cid aname (.ok gens) (.ok pconvs)).1 =
      fillnaCol (mergeOuter ["campaign_id", "date"]
        (DataFrame.mk pmaxCols (gens.map (pmaxRowDict aname)))
        (DataFrame.mk pmaxConvCols (pconvs.map pmaxConvRowDict)))
        "account_name" (Val.str aname) := by
  have hge : (DataFrame.mk pmaxCols (gens.map (pmaxRowDict aname))).rows.isEmpty = false := by
    cases hx : gens.map (pmaxRowDict aname) with
    | nil => exact absurd hx hg
    | cons a t => rfl
  have hce : (DataFrame.mk pmaxConvCols (pconvs.map pmaxConvRowDict)).rows.isEmpty = false := by
    cases hx : pconvs.map pmaxConvRowDict with
    | nil => exact absurd hx hc
    | cons a t => rfl
  have hacc : "account_name" ∈ (mergeOuter ["campaign_id", "date"]
      (DataFrame.mk pmaxCols (gens.map (pmaxRowDict aname)))
      (DataFrame.mk pmaxConvCols (pconvs.map pmaxConvRowDict))).cols := by
    rw [mem_mergeOuter_cols]
    left
    show "account_name" ∈ pmaxCols
    decide
  show (let pmax_df := dfOfDicts pmaxCols (gens.map (pmaxRowDict aname))
        let conv_df := dfOfDicts pmaxConvCols (pconvs.map pmaxConvRowDict)
        if pmax_df.rows.isEmpty ∧ conv_df.rows.isEmpty then emptyDF
        else if pmax_df.rows.isEmpty then
          setCol (setCol conv_df "account_name" (Val.str aname))
            "ad_group_name" (Val.str "Performance Max")
        else if conv_df.rows.isEmpty then pmax_df
        else
          let m := mergeOuter ["campaign_id", "date"] pmax_df conv_df
          if "account_name" ∈ m.cols then fillnaCol m "account_name" (Val.str aname)
          else m) = _
  rw [dfOfDicts_of_ne_nil pmaxCols _ hg, dfOfDicts_of_ne_nil pmaxConvCols _ hc]
  rw [if_neg (by simp [hge]), if_neg (by simp [hge]), if_neg (by simp [hce]),
    if_pos hacc]

theorem load_pmax_gen_empty (cid aname : String) (pconvs : List PmaxConvRow)
    (hc : pconvs.map pmaxConvRowDict ≠ []) :
    (load_pmax_data cid aname (.ok []) (.ok pconvs)).1 =
      setCol (setCol (DataFrame.mk pmaxConvCols (pconvs.map pmaxConvRowDict))
        "account_name" (Val.str aname)) "ad_group_name" (Val.str "Performance Max") := by
  have hce : (DataFrame.mk pmaxConvCols (pconvs.map pmaxConvRowDict)).rows.isEmpty = false := by
    cases hx : pconvs.map pmaxConvRowDict with
    | nil => exact absurd hx hc
    | cons a t => rfl
  show (let pmax_df := dfOfDicts pmaxCols (([] : List PmaxRow).map (pmaxRowDict aname))
        let conv_df := dfOfDicts pmaxConvCols (pconvs.map pmaxConvRowDict)
        if pmax_df.rows.isEmpty ∧ conv_df.rows.isEmpty then emptyDF
        else if pmax_df.rows.isEmpty then
          setCol (setCol conv_df "account_name" (Val.str aname))
            "ad_group_name" (Val.str "Performance Max")
        else if conv_df.rows.isEmpty then pmax_df
        else
          let m := mergeOuter ["campaign_id", "date"] pmax_df conv_df
          if "account_name" ∈ m.cols then fillnaCol m "account_name" (Val.str aname)
          else m) = _
  rw [dfOfDicts_of_ne_nil pmaxConvCols _ hc]
  rw [if_neg (by simp [hce]),
    if_pos (show (dfOfDicts pmaxCols
      (List.map (pmaxRowDict aname) ([] : List PmaxRow))).rows.isEmpty = true from rfl)]

/-- C3: for the pairs of partial record sets the per-account extractor
outer-joins (standard metrics with standard conversions on campaign, ad
group and date; PMax metrics with PMax conversions on campaign and
date), the joined output of the campaign extraction contains the union
of both sides of each pair (no row dropped), every measure column
present in the output is non-NaN on every row after the zero fill, and a
conversion row whose key matches no metrics row still appears, carrying
its conversions value with clicks, impressions and cost zero-filled. -/
theorem C3_outer_join_union_zero_fill (cid aname : String)
    (budResp : Except Unit (List BudgetRow))
    (stds : List StdRow) (convs : List StdConvRow)
    (gens : List PmaxRow) (pconvs : List PmaxConvRow)
    (hstds : stds ≠ []) (hconvs : convs ≠ []) :
    let out := (get_all_campaign_data_for_account cid aname budResp
      (.ok stds) (.ok convs) (.ok gens) (.ok pconvs)).1
    (∀ s ∈ stds, ∃ r ∈ out.rows,
        rowGet r "campaign_id" = Val.str (toString s.campaignId)
        ∧ rowGet r "ad_group_id" = Val.str (toString s.adGroupId)
        ∧ rowGet r "date" = Val.str s.date)
    ∧ (∀ c ∈ convs, ∃ r ∈ out.rows,
        rowGet r "campaign_id" = Val.str (toString c.campaignId)
        ∧ rowGet r "ad_group_id" = Val.str (toString c.adGroupId)
        ∧ rowGet r "date" = Val.str c.date)
    ∧ (∀ r ∈ out.rows, ∀ m ∈ zeroCols, m ∈ out.cols → rowGet r m ≠ Val.null)
    ∧ (∀ c ∈ convs,
        (∀ s ∈ stds, ¬(toString s.campaignId = toString c.campaignId
          ∧ toString s.adGroupId = toString c.adGroupId ∧ s.date = c.date)) →
        ∃ r ∈ out.rows,
          rowGet r "campaign_id" = Val.str (toString c.campaignId)
          ∧ rowGet r "ad_group_id" = Val.str (toString c.adGroupId)
          ∧ rowGet r "date" = Val.str c.date
          ∧ rowGet r "conversions" = Val.num c.conversions
          ∧ rowGet r "clicks" = Val.num 0
          ∧ rowGet r "impressions" = Val.num 0
          ∧ rowGet r "cost" = Val.num 0)
    ∧ (∀ g ∈ gens, ∃ r ∈ out.rows,
        rowGet r "campaign_id" = Val.num (g.campaignId : Rat)
        ∧ rowGet r "date" = Val.str g.date)
    ∧ (∀ c2 ∈ pconvs, ∃ r ∈ out.rows,
        rowGet r "campaign_id" = Val.num (c2.campaignId : Rat)
        ∧ rowGet r "date" = Val.str c2.date) := by
  intro out
  have hsrows_ne : stds.map (stdRowDict (budgetsOf budResp) aname) ≠ [] := by
    cases stds with
    | nil => exact absurd rfl hstds
    | cons a t => simp
  have hcrows_ne : convs.map stdConvRowDict ≠ [] := by
    cases convs with
    | nil => exact absurd rfl hconvs
    | cons a t => simp
  have hsrows_empty : (stds.map (stdRowDict (budgetsOf budResp) aname)).isEmpty = false := by
    cases stds with
    | nil => exact absurd rfl hstds
    | cons a t => rfl
  have hcrows_empty : (convs.map stdConvRowDict).isEmpty = false := by
    cases convs with
    | nil => exact absurd rfl hconvs
    | cons a t => rfl
  set M := mergeOuter ["campaign_id", "ad_group_id", "date"]
    (DataFrame.mk stdCols (stds.map (stdRowDict (budgetsOf budResp) aname)))
    (DataFrame.mk stdConvCols (convs.map stdConvRowDict)) with hM
  set FS := fillnaCol M "account_name" (Val.str aname) with hFS
  set PM := (load_pmax_data cid aname (Except.ok gens) (Except.ok pconvs)).1 with hPM
  have hout2 : out = finalizeCampaign cid FS PM := by
    show finalizeCampaign cid
      (combineStd aname
        (dfOfDicts stdCols (stds.map (stdRowDict (budgetsOf budResp) aname)))
        (dfOfDicts stdConvCols (convs.map stdConvRowDict)))
      (load_pmax_data cid aname (Except.ok gens) (Except.ok pconvs)).1
      = finalizeCampaign cid FS PM
    rw [dfOfDicts_of_ne_nil stdCols _ hsrows_ne,
      dfOfDicts_of_ne_nil stdConvCols _ hcrows_ne,
      combineStd_nonempty aname _ _ hsrows_empty hcrows_empty, ← hM, ← hFS, ← hPM]
  have hM_ne : M.rows ≠ [] := by
    show leftJoinRows ["campaign_id", "ad_group_id", "date"]
        (stds.map (stdRowDict (budgetsOf budResp) aname)) (convs.map stdConvRowDict)
      ++ rightOnlyRows ["campaign_id", "ad_group_id", "date"]
        (stds.map (stdRowDict (budgetsOf budResp) aname)) (convs.map stdConvRowDict)
      ≠ []
    cases hss : stds.map (stdRowDict (budgetsOf budResp) aname) with
    | nil => exact absurd hss hsrows_ne
    | cons r0 rt =>
        intro e
        rcases List.append_eq_nil.mp e with ⟨e1, _⟩
        exact leftJoinRows_cons_ne_nil _ r0 rt _ e1
  have hFS_ne : FS.rows ≠ [] := by
    show M.rows.map (fillRow "account_name" (Val.str aname)) ≠ []
    intro e
    cases hmm : M.rows with
    | nil => exact hM_ne hmm
    | cons a t =>
        rw [hmm] at e
        simp at e
  have hCCne : (concatDF FS PM).rows.isEmpty = false := by
    show (FS.rows ++ PM.rows).isEmpty = false
    cases hf : FS.rows with
    | nil => exact absurd hf hFS_ne
    | cons a t => rfl
  have hcs_cc : "campaign_status" ∈ (concatDF FS PM).cols := by
    rw [mem_concatDF_cols]
    left
    show "campaign_status" ∈ M.cols
    rw [hM, mem_mergeOuter_cols]
    left
    show "campaign_status" ∈ stdCols
    decide
  have hzc_cc : ∀ m ∈ zeroCols, m ∈ (concatDF FS PM).cols := by
    intro m hm
    rw [mem_concatDF_cols]
    left
    show m ∈ M.cols
    rw [hM, mem_mergeOuter_cols]
    show m ∈ stdCols ∨ m ∈ stdConvCols
    have hm2 : m = "clicks" ∨ m = "impressions" ∨ m = "cost" ∨ m = "conversions"
        ∨ m = "daily_budget" := by
      simpa [zeroCols] using hm
    rcases hm2 with rfl | rfl | rfl | rfl | rfl <;> decide
  have hrows_out : out.rows = (concatDF FS PM).rows.map (fun r =>
      fillRow "campaign_status" (Val.str "UNKNOWN")
        (rowSet (gFill zeroCols (concatDF FS PM).cols (Val.num 0) r)
          "customer_id" (Val.str cid))) := by
    rw [hout2]
    exact finalizeCampaign_rows cid FS PM hCCne hcs_cc
  have hcols_out : ∀ m, m ∈ out.cols ↔ m ∈ (concatDF FS PM).cols ∨ m = "customer_id" := by
    intro m
    rw [hout2]
    exact mem_finalizeCampaign_cols cid FS PM hCCne hcs_cc m
  have hmemCC_std : ∀ r2 : Row, r2 ∈ M.rows →
      fillRow "account_name" (Val.str aname) r2 ∈ (concatDF FS PM).rows := by
    intro r2 h
    show fillRow "account_name" (Val.str aname) r2 ∈ FS.rows ++ PM.rows
    apply List.mem_append_left
    show fillRow "account_name" (Val.str aname) r2 ∈
      M.rows.map (fillRow "account_name" (Val.str aname))
    exact List.mem_map_of_mem _ h
  have h1x : ∀ s ∈ stds, ∃ r ∈ out.rows,
      rowGet r "campaign_id" = Val.str (toString s.campaignId)
      ∧ rowGet r "ad_group_id" = Val.str (toString s.adGroupId)
      ∧ rowGet r "date" = Val.str s.date := by
    intro s hs
    obtain ⟨o0, ho0, hhas, hkeys⟩ := leftJoin_transport
      ["campaign_id", "ad_group_id", "date"]
      (stds.map (stdRowDict (budgetsOf budResp) aname)) (convs.map stdConvRowDict)
      (stdRowDict (budgetsOf budResp) aname s) (List.mem_map_of_mem _ hs)
    have k1 : rowGet o0 "campaign_id" = Val.str (toString s.campaignId) := by
      rw [hkeys "campaign_id" (by decide)]
      rfl
    have k2 : rowGet o0 "ad_group_id" = Val.str (toString s.adGroupId) := by
      rw [hkeys "ad_group_id" (by decide)]
      rfl
    have k3 : rowGet o0 "date" = Val.str s.date := by
      rw [hkeys "date" (by decide)]
      rfl
    have hmem : fillRow "account_name" (Val.str aname) o0 ∈ (concatDF FS PM).rows :=
      hmemCC_std o0 (List.mem_append_left _ ho0)
    refine ⟨fillRow "campaign_status" (Val.str "UNKNOWN")
      (rowSet (gFill zeroCols (concatDF FS PM).cols (Val.num 0)
        (fillRow "account_name" (Val.str aname) o0)) "customer_id" (Val.str cid)),
      ?_, ?_, ?_, ?_⟩
    · rw [hrows_out]
      exact List.mem_map_of_mem _ hmem
    · rw [finalize_after_accfill_rowGet cid aname ((concatDF FS PM).cols) o0
        "campaign_id" (by decide) (by decide) (by decide) (by decide), k1]
    · rw [finalize_after_accfill_rowGet cid aname ((concatDF FS PM).cols) o0
        "ad_group_id" (by decide) (by decide) (by decide) (by decide), k2]
    · rw [finalize_after_accfill_rowGet cid aname ((concatDF FS PM).cols) o0
        "date" (by decide) (by decide) (by decide) (by decide), k3]
  have h4x : ∀ c ∈ convs,
      (∀ s ∈ stds, ¬(toString s.campaignId = toString c.campaignId
        ∧ toString s.adGroupId = toString c.adGroupId ∧ s.date = c.date)) →
      ∃ r ∈ out.rows,
        rowGet r "campaign_id" = Val.str (toString c.campaignId)
        ∧ rowGet r "ad_group_id" = Val.str (toString c.adGroupId)
        ∧ rowGet r "date" = Val.str c.date
        ∧ rowGet r "conversions" = Val.num c.conversions
        ∧ rowGet r "clicks" = Val.num 0
        ∧ rowGet r "impressions" = Val.num 0
        ∧ rowGet r "cost" = Val.num 0 := by
    intro c hc hno
    have hun : ∀ l ∈ stds.map (stdRowDict (budgetsOf budResp) aname),
        ¬ keyOf ["campaign_id", "ad_group_id", "date"] l =
          keyOf ["campaign_id", "ad_group_id", "date"] (stdConvRowDict c) := by
      intro l hl heq
      obtain ⟨s, hs, rfl⟩ := List.mem_map.mp hl
      have heq2 : [Val.str (toString s.campaignId), Val.str (toString s.adGroupId),
          Val.str s.date] = [Val.str (toString c.campaignId),
          Val.str (toString c.adGroupId), Val.str c.date] := heq
      simp only [List.cons.injEq, Val.str.injEq, and_true] at heq2
      exact hno s hs ⟨heq2.1, heq2.2.1, heq2.2.2⟩
    have hro : stdConvRowDict c ∈ rightOnlyRows ["campaign_id", "ad_group_id", "date"]
        (stds.map (stdRowDict (budgetsOf budResp) aname)) (convs.map stdConvRowDict) :=
      mem_rightOnlyRows _ _ _ _ (List.mem_map_of_mem _ hc) hun
    have hmem : fillRow "account_name" (Val.str aname) (stdConvRowDict c)
        ∈ (concatDF FS PM).rows :=
      hmemCC_std (stdConvRowDict c) (List.mem_append_right _ hro)
    have hconv_acc : ∀ m : String, m ≠ "account_name" →
        rowGet (fillRow "account_name" (Val.str aname) (stdConvRowDict c)) m
          = rowGet (stdConvRowDict c) m := by
      intro m hm
      rw [rowGet_fillRow, if_neg (fun q => hm q.1)]
    refine ⟨fillRow "campaign_status" (Val.str "UNKNOWN")
      (rowSet (gFill zeroCols (concatDF FS PM).cols (Val.num 0)
        (fillRow "account_name" (Val.str aname) (stdConvRowDict c)))
        "customer_id" (Val.str cid)), ?_, ?_, ?_, ?_, ?_, ?_, ?_, ?_⟩
    · rw [hrows_out]
      exact List.mem_map_of_mem _ hmem
    · rw [finalize_after_accfill_rowGet cid aname ((concatDF FS PM).cols)
        (stdConvRowDict c) "campaign_id" (by decide) (by decide) (by decide) (by decide)]
      rfl
    · rw [finalize_after_accfill_rowGet cid aname ((concatDF FS PM).cols)
        (stdConvRowDict c) "ad_group_id" (by decide) (by decide) (by decide) (by decide)]
      rfl
    · rw [finalize_after_accfill_rowGet cid aname ((concatDF FS PM).cols)
        (stdConvRowDict c) "date" (by decide) (by decide) (by decide) (by decide)]
      rfl
    · have hv : rowGet (fillRow "account_name" (Val.str aname) (stdConvRowDict c))
          "conversions" = Val.num c.conversions := by
        rw [hconv_acc "conversions" (by decide)]
        rfl
      rw [finalize_row_fun_rowGet cid ((concatDF FS PM).cols) _ "conversions"
        (by decide) (by decide),
        if_neg (fun q => by rw [hv] at q; exact Val.noConfusion q.2.2), hv]
    · have hv : rowGet (fillRow "account_name" (Val.str aname) (stdConvRowDict c))
          "clicks" = Val.null := by
        rw [hconv_acc "clicks" (by decide)]
        rfl
      rw [finalize_row_fun_rowGet cid ((concatDF FS PM).cols) _ "clicks"
        (by decide) (by decide),
        if_pos ⟨by decide, hzc_cc "clicks" (by decide), hv⟩]
    · have hv : rowGet (fillRow "account_name" (Val.str aname) (stdConvRowDict c))
          "impressions" = Val.null := by
        rw [hconv_acc "impressions" (by decide)]
        rfl
      rw [finalize_row_fun_rowGet cid ((concatDF FS PM).cols) _ "impressions"
        (by decide) (by decide),
        if_pos ⟨by decide, hzc_cc "impressions" (by decide), hv⟩]
    · have hv : rowGet (fillRow "account_name" (Val.str aname) (stdConvRowDict c))
          "cost" = Val.null := by
        rw [hconv_acc "cost" (by decide)]
        rfl
      rw [finalize_row_fun_rowGet cid ((concatDF FS PM).cols) _ "cost"
        (by decide) (by decide),
        if_pos ⟨by decide, hzc_cc "cost" (by decide), hv⟩]
  have h2x : ∀ c ∈ convs, ∃ r ∈ out.rows,
      rowGet r "campaign_id" = Val.str (toString c.campaignId)
      ∧ rowGet r "ad_group_id" = Val.str (toString c.adGroupId)
      ∧ rowGet r "date" = Val.str c.date := by
    intro c hc
    by_cases hx : ∃ s ∈ stds, toString s.campaignId = toString c.campaignId
        ∧ toString s.adGroupId = toString c.adGroupId ∧ s.date = c.date
    · obtain ⟨s, hs, e1, e2, e3⟩ := hx
      obtain ⟨r, hrmem, k1, k2, k3⟩ := h1x s hs
      exact ⟨r, hrmem, by rw [k1, e1], by rw [k2, e2], by rw [k3, e3]⟩
    · have hno : ∀ s ∈ stds, ¬(toString s.campaignId = toString c.campaignId
          ∧ toString s.adGroupId = toString c.adGroupId ∧ s.date = c.date) :=
        fun s hs hcontra => hx ⟨s, hs, hcontra⟩
      obtain ⟨r, hrmem, k1, k2, k3, _, _, _, _⟩ := h4x c hc hno
      exact ⟨r, hrmem, k1, k2, k3⟩
  have h3x : ∀ r ∈ out.rows, ∀ m ∈ zeroCols, m ∈ out.cols → rowGet r m ≠ Val.null := by
    intro r hr m hmz hmcols
    rw [hrows_out] at hr
    obtain ⟨r0, hr0, rfl⟩ := List.mem_map.mp hr
    have hm1 : m ≠ "customer_id" := by
      intro e
      rw [e] at hmz
      exact absurd hmz (by decide)
    have hm2 : m ≠ "campaign_status" := by
      intro e
      rw [e] at hmz
      exact absurd hmz (by decide)
    have hmC : m ∈ (concatDF FS PM).cols := by
      rcases (hcols_out m).mp hmcols with h | h
      · exact h
      · exact absurd h hm1
    rw [finalize_row_fun_rowGet cid ((concatDF FS PM).cols) r0 m hm1 hm2]
    by_cases hnull : rowGet r0 m = Val.null
    · rw [if_pos ⟨hmz, hmC, hnull⟩]
      exact fun q => Val.noConfusion q
    · rw [if_neg (fun q => hnull q.2.2)]
      exact hnull
  have hmemCC_pm : ∀ r2 : Row, r2 ∈ PM.rows → r2 ∈ (concatDF FS PM).rows := by
    intro r2 h
    show r2 ∈ FS.rows ++ PM.rows
    exact List.mem_append_right _ h
  have h5x : ∀ g ∈ gens, ∃ r ∈ out.rows,
      rowGet r "campaign_id" = Val.num (g.campaignId : Rat)
      ∧ rowGet r "date" = Val.str g.date := by
    intro g hg
    have hgrows_ne : gens.map (pmaxRowDict aname) ≠ [] := by
      intro e
      have h2 := List.mem_map_of_mem (pmaxRowDict aname) hg
      rw [e] at h2
      cases h2
    by_cases hpc : pconvs.map pmaxConvRowDict = []
    · have hpc0 : pconvs = [] := by
        cases pconvs with
        | nil => rfl
        | cons a t => simp at hpc
      have hpm1 : PM = DataFrame.mk pmaxCols (gens.map (pmaxRowDict aname)) := by
        rw [hPM, hpc0]
        exact load_pmax_conv_empty cid aname gens hgrows_ne
      have hmem : pmaxRowDict aname g ∈ (concatDF FS PM).rows := by
        apply hmemCC_pm
        rw [hpm1]
        exact List.mem_map_of_mem _ hg
      refine ⟨fillRow "campaign_status" (Val.str "UNKNOWN")
        (rowSet (gFill zeroCols (concatDF FS PM).cols (Val.num 0)
          (pmaxRowDict aname g)) "customer_id" (Val.str cid)), ?_, ?_, ?_⟩
      · rw [hrows_out]
        exact List.mem_map_of_mem _ hmem
      · rw [finalize_row_fun_rowGet cid ((concatDF FS PM).cols) _ "campaign_id"
          (by decide) (by decide), if_neg (fun q => absurd q.1 (by decide))]
        rfl
      · rw [finalize_row_fun_rowGet cid ((concatDF FS PM).cols) _ "date"
          (by decide) (by decide), if_neg (fun q => absurd q.1 (by decide))]
        rfl
    · have hpm1 : PM = fillnaCol (mergeOuter ["campaign_id", "date"]
          (DataFrame.mk pmaxCols (gens.map (pmaxRowDict aname)))
          (DataFrame.mk pmaxConvCols (pconvs.map pmaxConvRowDict)))
          "account_name" (Val.str aname) := by
        rw [hPM]
        exact load_pmax_both_nonempty cid aname gens pconvs hgrows_ne hpc
      obtain ⟨o0, ho0, hhas, hkeys⟩ := leftJoin_transport ["campaign_id", "date"]
        (gens.map (pmaxRowDict aname)) (pconvs.map pmaxConvRowDict)
        (pmaxRowDict aname g) (List.mem_map_of_mem _ hg)
      have k1 : rowGet o0 "campaign_id" = Val.num (g.campaignId : Rat) := by
        rw [hkeys "campaign_id" (by decide)]
        rfl
      have k2 : rowGet o0 "date" = Val.str g.date := by
        rw [hkeys "date" (by decide)]
        rfl
      have hmem : fillRow "account_name" (Val.str aname) o0 ∈ (concatDF FS PM).rows := by
        apply hmemCC_pm
        rw [hpm1]
        exact List.mem_map_of_mem _ (List.mem_append_left _ ho0)
      refine ⟨fillRow "campaign_status" (Val.str "UNKNOWN")
        (rowSet (gFill zeroCols (concatDF FS PM).cols (Val.num 0)
          (fillRow "account_name" (Val.str aname) o0)) "customer_id" (Val.str cid)),
        ?_, ?_, ?_⟩
      · rw [hrows_out]
        exact List.mem_map_of_mem _ hmem
      · rw [finalize_after_accfill_rowGet cid aname ((concatDF FS PM).cols) o0
          "campaign_id" (by decide) (by decide) (by decide) (by decide), k1]
      · rw [finalize_after_accfill_rowGet cid aname ((concatDF FS PM).cols) o0
          "date" (by decide) (by decide) (by decide) (by decide), k2]
  have h6x : ∀ c2 ∈ pconvs, ∃ r ∈ out.rows,
      rowGet r "campaign_id" = Val.num (c2.campaignId : Rat)
      ∧ rowGet r "date" = Val.str c2.date := by
    intro c2 hc2
    have hpc_ne : pconvs.map pmaxConvRowDict ≠ [] := by
      intro e
      have h2 := List.mem_map_of_mem pmaxConvRowDict hc2
      rw [e] at h2
      cases h2
    by_cases hge : gens.map (pmaxRowDict aname) = []
    · have hg0 : gens = [] := by
        cases gens with
        | nil => rfl
        | cons a t => simp at hge
      have hpm1 : PM = setCol (setCol
          (DataFrame.mk pmaxConvCols (pconvs.map pmaxConvRowDict))
          "account_name" (Val.str aname)) "ad_group_name" (Val.str "Performance Max") := by
        rw [hPM, hg0]
        exact load_pmax_gen_empty cid aname pconvs hpc_ne
      have hmem : rowSet (rowSet (pmaxConvRowDict c2) "account_name" (Val.str aname))
          "ad_group_name" (Val.str "Performance Max") ∈ (concatDF FS PM).rows := by
        apply hmemCC_pm
        rw [hpm1]
        show _ ∈ ((pconvs.map pmaxConvRowDict).map
          (fun r => rowSet r "account_name" (Val.str aname))).map
          (fun r => rowSet r "ad_group_name" (Val.str "Performance Max"))
        exact List.mem_map_of_mem _ (List.mem_map_of_mem _
          (List.mem_map_of_mem _ hc2))
      have hv1 : rowGet (rowSet (rowSet (pmaxConvRowDict c2) "account_name"
          (Val.str aname)) "ad_group_name" (Val.str "Performance Max"))
          "campaign_id" = Val.num (c2.campaignId : Rat) := by
        rw [rowGet_rowSet_ne _ _ _ _ (by decide), rowGet_rowSet_ne _ _ _ _ (by decide)]
        rfl
      have hv2 : rowGet (rowSet (rowSet (pmaxConvRowDict c2) "account_name"
          (Val.str aname)) "ad_group_name" (Val.str "Performance Max"))
          "date" = Val.str c2.date := by
        rw [rowGet_rowSet_ne _ _ _ _ (by decide), rowGet_rowSet_ne _ _ _ _ (by decide)]
        rfl
      refine ⟨fillRow "campaign_status" (Val.str "UNKNOWN")
        (rowSet (gFill zeroCols (concatDF FS PM).cols (Val.num 0)
          (rowSet (rowSet (pmaxConvRowDict c2) "account_name" (Val.str aname))
            "ad_group_name" (Val.str "Performance Max"))) "customer_id" (Val.str cid)),
        ?_, ?_, ?_⟩
      · rw [hrows_out]
        exact List.mem_map_of_mem _ hmem
      · rw [finalize_row_fun_rowGet cid ((concatDF FS PM).cols) _ "campaign_id"
          (by decide) (by decide), if_neg (fun q => absurd q.1 (by decide)), hv1]
      · rw [finalize_row_fun_rowGet cid ((concatDF FS PM).cols) _ "date"
          (by decide) (by decide), if_neg (fun q => absurd q.1 (by decide)), hv2]
    · by_cases hmx : ∃ g ∈ gens, keyOf ["campaign_id", "date"] (pmaxRowDict aname g)
          = keyOf ["campaign_id", "date"] (pmaxConvRowDict c2)
      · obtain ⟨g, hg, hkeq⟩ := hmx
        have hkeq2 : [Val.num (g.campaignId : Rat), Val.str g.date]
            = [Val.num (c2.campaignId : Rat), Val.str c2.date] := hkeq
        simp only [List.cons.injEq, and_true] at hkeq2
        obtain ⟨r, hrmem, k1, k2⟩ := h5x g hg
        exact ⟨r, hrmem, by rw [k1, Val.num.injEq] at *; rw [k1]; exact hkeq2.1,
          by rw [k2]; exact hkeq2.2⟩
      · have hpm1 : PM = fillnaCol (mergeOuter ["campaign_id", "date"]
            (DataFrame.mk pmaxCols (gens.map (pmaxRowDict aname)))
            (DataFrame.mk pmaxConvCols (pconvs.map pmaxConvRowDict)))
            "account_name" (Val.str aname) := by
          rw [hPM]
          exact load_pmax_both_nonempty cid aname gens pconvs hge hpc_ne
        have hun : ∀ l ∈ gens.map (pmaxRowDict aname),
            ¬ keyOf ["campaign_id", "date"] l =
              keyOf ["campaign_id", "date"] (pmaxConvRowDict c2) := by
          intro l hl heq
          obtain ⟨g, hg, rfl⟩ := List.mem_map.mp hl
          exact hmx ⟨g, hg, heq⟩
        have hro2 : pmaxConvRowDict c2 ∈ rightOnlyRows ["campaign_id", "date"]
            (gens.map (pmaxRowDict aname)) (pconvs.map pmaxConvRowDict) :=
          mem_rightOnlyRows _ _ _ _ (List.mem_map_of_mem _ hc2) hun
        have hmem : fillRow "account_name" (Val.str aname) (pmaxConvRowDict c2)
            ∈ (concatDF FS PM).rows := by
          apply hmemCC_pm
          rw [hpm1]
          exact List.mem_map_of_mem _ (List.mem_append_right _ hro2)
        refine ⟨fillRow "campaign_status" (Val.str "UNKNOWN")
          (rowSet (gFill zeroCols (concatDF FS PM).cols (Val.num 0)
            (fillRow "account_name" (Val.str aname) (pmaxConvRowDict c2)))
            "customer_id" (Val.str cid)), ?_, ?_, ?_⟩
        · rw [hrows_out]
          exact List.mem_map_of_mem _ hmem
        · rw [finalize_after_accfill_rowGet cid aname ((concatDF FS PM).cols)
            (pmaxConvRowDict c2) "campaign_id" (by decide) (by decide) (by decide)
            (by decide)]
          rfl
        · rw [finalize_after_accfill_rowGet cid aname ((concatDF FS PM).cols)
            (pmaxConvRowDict c2) "date" (by decide) (by decide) (by decide)
            (by decide)]
          rfl
  exact ⟨h1x, h2x, h3x, h4x, h5x, h6x⟩

/-- C3 witness: a conversion row keyed (9, 8, 2024-01-02) with no
matching metrics row still appears in the joined output, carrying its
conversions value 7 with clicks, impressions and cost zero-filled. -/
theorem C3_outer_join_union_zero_fill_witness :
    (let out := (get_all_campaign_data_for_account "111" "Acme" (Except.ok [])
      (.ok [⟨1, "cmp", "ENABLED", 2, "ag", "2024-01-01", 3, 4, 5⟩])
      (.ok [⟨9, 8, "2024-01-02", "buy", 7⟩]) (.ok []) (.ok [])).1
     ∃ r ∈ out.rows,
       rowGet r "campaign_id" = Val.str (toString (9 : Nat))
       ∧ rowGet r "ad_group_id" = Val.str (toString (8 : Nat))
       ∧ rowGet r "date" = Val.str "2024-01-02"
       ∧ rowGet r "conversions" = Val.num 7
       ∧ rowGet r "clicks" = Val.num 0
       ∧ rowGet r "impressions" = Val.num 0
       ∧ rowGet r "cost" = Val.num 0) := by
  have h := C3_outer_join_union_zero_fill "111" "Acme" (Except.ok [])
    [⟨1, "cmp", "ENABLED", 2, "ag", "2024-01-01", 3, 4, 5⟩]
    [⟨9, 8, "2024-01-02", "buy", 7⟩] [] [] (by decide) (by decide)
  exact h.2.2.2.1 ⟨9, 8, "2024-01-02", "buy", 7⟩ (by decide) (by decide)
